import Mathlib

/-!
Verification of the Tic-Tac-Toe session server (C sources under `server/src`).

The development shallowly embeds the server's data model and operations:

* the pure game engine (`game.c`): board, `check_win`, `game_move`;
* the room registry (`room.c`): `room_create`, `room_join`, `room_leave`,
  `handle_disconnect`, `room_reconnect`, `room_try_restart`,
  `rooms_prune_disconnected`, `room_remove_if_empty_locked`;
* the protocol dispatcher (`client.c`): `dispatch_line`, `bump_invalid`,
  `handle_join`;
* configuration loading (`config.c`) and the clamping done by `main`
  (`main.c`), plus the heartbeat thread's grace sweep.

Modelling conventions, used uniformly below:

* A C pointer to a `Client` is modelled by a numeric identity `ClientId`;
  the client's socket descriptor `fd` is identified with that id, so an
  outbound `sendp(c->fd, ...)` is recorded as a `(ClientId, String)` pair.
* `sendp` prepends "##" and appends a newline on the wire; the model records
  the formatted payload only (the framing carries no information).
* C `NULL` pointers become `none`; the fixed-size `g_rooms` array together
  with `g_room_count` becomes a `List Room` (the C removal shifts the array
  left by one, which is exactly list erasure of that element).
* C `int` becomes `Int`, `time_t` becomes `Int` (seconds); C truthiness of
  an `int` (`if (x)`) becomes `x ≠ 0`.
* `char` buffers holding names/sessions become `String`; the `snprintf`
  truncation to the 32-byte buffers is modelled by taking the first 31
  characters.
-/

/-! ## Game engine (`game.c`) -/

/-- The 3x3 board, `char board[SIZE][SIZE]` with `SIZE = 3`; `board y x`
is the C `board[y][x]` (first index is the row). Cells hold `' '`, `'X'`
or `'O'`. -/
def Board : Type := Fin 3 → Fin 3 → Char

/-- Row scan of `check_win` (`game.c:160-162`), the `SIZE = 3` loop
unrolled; an early `return 1` on iteration `i` is the disjunct for `i`. -/
def rowWin (b : Board) : Bool :=
  (b 0 0 != ' ' && b 0 0 == b 0 1 && b 0 1 == b 0 2) ||
  (b 1 0 != ' ' && b 1 0 == b 1 1 && b 1 1 == b 1 2) ||
  (b 2 0 != ' ' && b 2 0 == b 2 1 && b 2 1 == b 2 2)

/-- Column scan of `check_win` (`game.c:165-167`), unrolled. -/
def colWin (b : Board) : Bool :=
  (b 0 0 != ' ' && b 0 0 == b 1 0 && b 1 0 == b 2 0) ||
  (b 0 1 != ' ' && b 0 1 == b 1 1 && b 1 1 == b 2 1) ||
  (b 0 2 != ' ' && b 0 2 == b 1 2 && b 1 2 == b 2 2)

/-- Fullness scan of `check_win` (`game.c:176-180`): `full` stays `1`
unless some cell is a space. -/
def fullB (b : Board) : Bool :=
  (b 0 0 != ' ') && (b 0 1 != ' ') && (b 0 2 != ' ') &&
  (b 1 0 != ' ') && (b 1 1 != ' ') && (b 1 2 != ' ') &&
  (b 2 0 != ' ') && (b 2 1 != ' ') && (b 2 2 != ' ')

/-- Main-diagonal check of `check_win` (`game.c:170-171`). -/
def diagWin (b : Board) : Bool :=
  b 0 0 != ' ' && b 0 0 == b 1 1 && b 1 1 == b 2 2

/-- Anti-diagonal check of `check_win` (`game.c:172-173`). -/
def antiWin (b : Board) : Bool :=
  b 0 2 != ' ' && b 0 2 == b 1 1 && b 1 1 == b 2 0

/-- `check_win` (`game.c:158-183`): 1 = win, 2 = draw, 0 = ongoing.
Rows, then columns, then the two diagonals, then the draw check. -/
def check_win (b : Board) : Nat :=
  if rowWin b then 1
  else if colWin b then 1
  else if diagWin b then 1
  else if antiWin b then 1
  else if fullB b then 2
  else 0

/-- Spec-side predicate: some full row, full column, or either diagonal
holds three identical non-empty symbols. -/
def hasWinLine (b : Board) : Prop :=
  (∃ i : Fin 3, b i 0 ≠ ' ' ∧ b i 0 = b i 1 ∧ b i 1 = b i 2) ∨
  (∃ i : Fin 3, b 0 i ≠ ' ' ∧ b 0 i = b 1 i ∧ b 1 i = b 2 i) ∨
  (b 0 0 ≠ ' ' ∧ b 0 0 = b 1 1 ∧ b 1 1 = b 2 2) ∨
  (b 0 2 ≠ ' ' ∧ b 0 2 = b 1 1 ∧ b 1 1 = b 2 0)

/-- Spec-side predicate: every cell of the board is occupied. -/
def boardFull (b : Board) : Prop := ∀ i j : Fin 3, b i j ≠ ' '

/-! ## Data model (`client.h`, `room.h`, `game.h`) -/

/-- Identity of a connected client; models a `struct Client*` pointer.
The client's socket descriptor `fd` is identified with this id when
recording outbound messages. -/
abbrev ClientId := Nat

/-- `ClientState` (`client.h`): `CLIENT_STATE_LOBBY / WAITING / PLAYING`. -/
inductive ClientState where
  | lobby
  | waiting
  | playing
deriving DecidableEq

/-- `RoomState` (`room.h`): `ROOM_EMPTY / ROOM_WAITING / ROOM_PLAYING`. -/
inductive RoomState where
  | empty
  | waiting
  | playing
deriving DecidableEq

/-- `struct Client` (`client.h`), the fields the embedded operations
touch. `fd` is identified with `cid`. -/
structure Client where
  cid : ClientId
  name : String
  state : ClientState
  current_room : Option Int
  alive : Bool
  connected : Bool
  missed_pongs : Int
  invalid_count : Int
  session_id : String
deriving DecidableEq

/-- `struct Game` (`game.h`): board, current-turn pointer, outcome
(0 = running, 1 = win, 2 = draw). -/
structure Game where
  board : Board
  current_turn : Option ClientId
  state : Nat

/-- `struct Room` (`room.h` plus the fields `room.c` uses:
`p1_disconnected_at`, `p2_disconnected_at`, `p1_pending_win`,
`p2_pending_win`). Player slots `p1`/`p2` are `Client*` pointers
(`Option ClientId`); the `replay_*` flags are C `int`s tested for
non-zero. -/
structure Room where
  id : Int
  name : String
  state : RoomState
  game : Game
  replay_p1 : Int
  replay_p2 : Int
  p1 : Option ClientId
  p2 : Option ClientId
  p1_disconnected : Bool
  p2_disconnected : Bool
  p1_name : String
  p2_name : String
  p1_session : String
  p2_session : String
  p1_disconnected_at : Int
  p2_disconnected_at : Int
  p1_pending_win : Int
  p2_pending_win : Int
  starting_player : Int

/-- The server's shared mutable state: `g_rooms` with `g_room_count`
(as a list), `g_next_room_id`, the client registry `g_clients`, and the
transcript of `sendp` calls in emission order. -/
structure ServerState where
  rooms : List Room
  next_room_id : Int
  clients : List Client
  msgs : List (ClientId × String)

/-- `sendp(fd, ...)` (`utils.c:29-44`): records the formatted payload for
`fd`; the wire framing ("##" plus newline) is dropped. -/
def sendp (s : ServerState) (fd : ClientId) (m : String) : ServerState :=
  { s with msgs := s.msgs ++ [(fd, m)] }

/-- Dereference a `Client*`: look the client up in the registry. -/
def getClient? (s : ServerState) (cid : ClientId) : Option Client :=
  s.clients.find? (fun c => c.cid == cid)

/-- In-place mutation through a `Client*`: rewrite that client's entry. -/
def updateClient (s : ServerState) (cid : ClientId) (f : Client → Client) : ServerState :=
  { s with clients := s.clients.map (fun c => if c.cid = cid then f c else c) }

/-- `room_find_by_id` (`room.c:81-85`): first room with the given id. -/
def room_find_by_id (s : ServerState) (rid : Int) : Option Room :=
  s.rooms.find? (fun r => r.id == rid)

/-- In-place mutation through a `Room*` that was found by id. -/
def updateRoom (s : ServerState) (rid : Int) (f : Room → Room) : ServerState :=
  { s with rooms := s.rooms.map (fun r => if r.id = rid then f r else r) }

/-- Name behind an optional `Client*`, `""` when the slot is empty (the C
code only dereferences when the pointer is non-null unless noted). -/
def nameOf (s : ServerState) (ocid : Option ClientId) : String :=
  match ocid with
  | none => ""
  | some cid =>
    match getClient? s cid with
    | none => ""
    | some c => c.name

/-- Send a message to an optional client, a no-op on `none`; models the
`if (p) sendp(p->fd, ...)` idiom. -/
def sendOpt (s : ServerState) (ocid : Option ClientId) (m : String) : ServerState :=
  match ocid with
  | none => s
  | some cid => sendp s cid m

/-- `room_remove_if_empty_locked` (`room.c:489-501`): if the room (found
by pointer, here by id) has both slot pointers null, shift the array left
over it, i.e. erase that entry from the list. -/
def room_remove_if_empty_locked (rooms : List Room) (r : Room) : List Room :=
  if r.p1 = none ∧ r.p2 = none then rooms.eraseP (fun q => q.id == r.id) else rooms

/-- `snprintf` into a 32-byte buffer: keep the first 31 characters. -/
def trunc31 (str : String) : String :=
  String.mk (str.toList.take 31)

/-- Write-through of a `Room*` obtained from `room_find_by_id`: replace
the first entry with that id (ids are unique in reachable states). -/
def writeRoomList : List Room → Int → Room → List Room
  | [], _, _ => []
  | q :: qs, rid, r => if q.id = rid then r :: qs else q :: writeRoomList qs rid r

/-- Write an updated room back into the registry. -/
def writeRoom (s : ServerState) (rid : Int) (r : Room) : ServerState :=
  { s with rooms := writeRoomList s.rooms rid r }

/-- Session token behind an optional `Client*`, `""` when empty. -/
def sessionOf (s : ServerState) (ocid : Option ClientId) : String :=
  match ocid with
  | none => ""
  | some cid =>
    match getClient? s cid with
    | none => ""
    | some c => c.session_id

/-! ## Game and room operations -/

/-- `game_reset` (`game.c:22-29`): clear the board, hand the turn to
`first`, outcome running. -/
def game_reset (first : Option ClientId) : Game :=
  { board := fun _ _ => ' ', current_turn := first, state := 0 }

/-- `game_start` (`game.c:37-41`): reset with `r->p1` to move and tell
that player it is their move. -/
def game_start (s : ServerState) (rid : Int) : ServerState :=
  match room_find_by_id s rid with
  | none => s
  | some r =>
    let s1 := writeRoom s rid { r with game := game_reset r.p1 }
    sendOpt s1 r.p1 "TURN|Your move"

/-- `room_create` (`room.c:37-73`): capacity check against
`g_config.max_rooms`, then a fresh zero-initialised room with the next
monotonically increasing id, creator in `p1`, `WAITING` state. -/
def room_create (s : ServerState) (name : String) (cid : ClientId) (max_rooms : Int) : ServerState :=
  match getClient? s cid with
  | none => s
  | some creator =>
    if (s.rooms.length : Int) ≥ max_rooms then
      sendp s cid "ERROR|Lobby full"
    else
      let rid := s.next_room_id
      let r : Room :=
        { id := rid
          name := trunc31 name
          state := RoomState.waiting
          game := { board := fun _ _ => Char.ofNat 0, current_turn := none, state := 0 }
          replay_p1 := 0
          replay_p2 := 0
          p1 := some cid
          p2 := none
          p1_disconnected := false
          p2_disconnected := false
          p1_name := trunc31 creator.name
          p2_name := ""
          p1_session := trunc31 creator.session_id
          p2_session := ""
          p1_disconnected_at := 0
          p2_disconnected_at := 0
          p1_pending_win := 0
          p2_pending_win := 0
          starting_player := 0 }
      let s1 := { s with rooms := s.rooms ++ [r], next_room_id := rid + 1 }
      let s2 := updateClient s1 cid
        (fun c => { c with current_room := some rid, state := ClientState.waiting })
      sendp s2 cid ("CREATED|" ++ toString rid ++ "|" ++ r.name)

/-- `room_join` (`room.c:93-153`). Unknown id, self-join as owner (`p1`),
and full/non-waiting rooms are rejected; a lone live `p2` occupant is
first normalized into `p1`; on success the joiner fills the free slot,
the room enters `PLAYING`, both sides get `CLEAR`/`START`/`SYMBOL`, and
the game is reset with `p1` (symbol X) to move. Where the C code
dereferences a slot pointer unconditionally the model sends only when the
slot is occupied (in the states the server reaches, those pointers are
non-null). -/
def room_join (s : ServerState) (room_id : Int) (cid : ClientId) : ServerState :=
  match getClient? s cid with
  | none => s
  | some joiner =>
    match room_find_by_id s room_id with
    | none => sendp s cid "ERROR|No such room"
    | some r =>
      if r.p1 = some cid then sendp s cid "ERROR|Cannot join your own room"
      else
        let r1 :=
          if r.p1 = none ∧ r.p2 ≠ none ∧ r.p2_disconnected = false then
            { r with p1 := r.p2, p2 := none,
                     p1_name := trunc31 (nameOf s r.p2),
                     p1_session := trunc31 (sessionOf s r.p2),
                     p2_name := "", p2_session := "",
                     p2_disconnected := false, p2_disconnected_at := 0 }
          else r
        if r1.state ≠ RoomState.waiting ∨ (r1.p1 ≠ none ∧ r1.p2 ≠ none) then
          sendp s cid "ERROR|Room full"
        else
          let r2 :=
            if r1.p1 = none then
              { r1 with p1 := some cid, p1_name := trunc31 joiner.name,
                        p1_session := trunc31 joiner.session_id }
            else
              { r1 with p2 := some cid, p2_name := trunc31 joiner.name,
                        p2_session := trunc31 joiner.session_id }
          let r3 := { r2 with state := RoomState.playing }
          let first := r3.p1
          let second := r3.p2
          let s1 := writeRoom s room_id r3
          let s2 := updateClient s1 cid
            (fun c => { c with current_room := some room_id, state := ClientState.playing })
          let s3 := sendp s2 cid ("JOINEDROOM|" ++ toString r3.id ++ "|" ++ r3.name)
          let s4 := sendOpt s3 first "CLEAR|"
          let s5 := sendOpt s4 second "CLEAR|"
          let s6 := sendOpt s5 first ("START|Opponent:" ++ nameOf s2 second)
          let s7 := sendOpt s6 second ("START|Opponent:" ++ nameOf s2 first)
          let s8 := writeRoom s7 room_id { r3 with starting_player := 0, game := game_reset first }
          let s9 := sendOpt s8 first "SYMBOL|X"
          let s10 := sendOpt s9 second "SYMBOL|O"
          let s11 := writeRoom s10 room_id
            { r3 with starting_player := 0, game := game_reset first,
                      replay_p1 := 0, replay_p2 := 0 }
          game_start s11 room_id

/-- Slot clearing of `room_leave` (`room.c:168-186`): vacate the
leaver's slot, then wipe the identity (name, session, disconnect
mark) of every slot whose pointer is now null. -/
def rl_clear (r : Room) (cid : ClientId) : Room :=
  let rA := { r with p1 := if r.p1 = some cid then none else r.p1,
                     p2 := if r.p2 = some cid then none else r.p2 }
  let rB := if rA.p1 = none then
      { rA with p1_name := "", p1_session := "",
                p1_disconnected := false, p1_disconnected_at := 0 }
    else rA
  if rB.p2 = none then
    { rB with p2_name := "", p2_session := "",
              p2_disconnected := false, p2_disconnected_at := 0 }
  else rB

/-- Leaver/opponent notification of `room_leave` (`room.c:188-198`):
the leaver returns to the lobby and is acknowledged; if a game was in
progress the first remaining occupant is awarded the win. -/
def rl_notify (s : ServerState) (cid : ClientId) (rC : Room) (was_playing : Bool) : ServerState :=
  let s1 := updateClient s cid
    (fun q => { q with current_room := none, state := ClientState.lobby })
  let s2 := sendp s1 cid "EXITED|"
  let other := if rC.p1 ≠ none then rC.p1 else rC.p2
  match other with
  | some o => if was_playing then sendp (sendp s2 o "INFO|Opponent left") o "WIN|You" else s2
  | none => s2

/-- Final classification of `room_leave` (`room.c:202-209`): both slot
pointers null removes the room, exactly one demotes it to `WAITING`. -/
def rl_finish (s3 : ServerState) (rid : Int) (rD : Room) : ServerState :=
  if rD.p1 = none ∧ rD.p2 = none then
    let rE := { rD with state := RoomState.empty }
    let s4 := writeRoom s3 rid rE
    { s4 with rooms := room_remove_if_empty_locked s4.rooms rE }
  else if rD.p1 = none ∨ rD.p2 = none then
    writeRoom s3 rid { rD with state := RoomState.waiting }
  else
    writeRoom s3 rid rD

/-- `room_leave` (`room.c:162-211`), the voluntary exit, assembled from
the three steps above; the replay flags are cleared (`room.c:200`)
before the final classification. -/
def room_leave (s : ServerState) (cid : ClientId) : ServerState :=
  match getClient? s cid with
  | none => s
  | some c =>
    match c.current_room with
    | none => s
    | some rid =>
      match room_find_by_id s rid with
      | none => s
      | some r =>
        let rC := rl_clear r cid
        let s3 := rl_notify s cid rC (r.state = RoomState.playing)
        rl_finish s3 rid { rC with replay_p1 := 0, replay_p2 := 0 }

/-- Identity preservation of `handle_disconnect` (`room.c:311-325`): the
slot held by the leaver is vacated with its name, session token and the
current timestamp preserved; the slot is marked disconnected exactly when
the other slot's pointer is non-null. -/
def hd_mark (r : Room) (c : Client) (cid : ClientId) (now : Int) : Room :=
  if r.p1 = some cid then
    { r with p1_name := trunc31 c.name, p1_session := trunc31 c.session_id,
             p1 := none, p1_disconnected := r.p2 ≠ none,
             p1_disconnected_at := now, p1_pending_win := 0 }
  else if r.p2 = some cid then
    { r with p2_name := trunc31 c.name, p2_session := trunc31 c.session_id,
             p2 := none, p2_disconnected := r.p1 ≠ none,
             p2_disconnected_at := now, p2_pending_win := 0 }
  else r

/-- Turn reset of `handle_disconnect` (`room.c:328-330`): clear the turn
pointer if it was the leaver's. -/
def hd_clear_turn (r : Room) (cid : ClientId) : Room :=
  if r.game.current_turn = some cid then
    { r with game := { r.game with current_turn := none } }
  else r

/-- `handle_disconnect` (`room.c:301-351`), the involuntary exit: the
slot's identity (name, session token, timestamp) is preserved and the
slot marked disconnected exactly when an opponent pointer remains; the
turn pointer is cleared if it was the leaver's; a remaining occupant is
notified with the configured grace and the room demoted to `WAITING`,
otherwise the room is reclaimed. -/
def handle_disconnect (s : ServerState) (cid : ClientId) (grace now : Int) : ServerState :=
  match getClient? s cid with
  | none => s
  | some c =>
    match c.current_room with
    | none => s
    | some rid =>
      match room_find_by_id s rid with
      | none => s
      | some r =>
        let rB := hd_clear_turn (hd_mark r c cid now) cid
        let s1 := updateClient s cid
          (fun q => { q with connected := false, current_room := none,
                             state := ClientState.lobby })
        let other := if rB.p1 ≠ none then rB.p1 else rB.p2
        match other with
        | some o =>
          let s2 := sendp s1 o
            ("INFO|Opponent disconnected, waiting " ++ toString grace ++ " s to reconnect")
          let s3 := updateClient s2 o
            (fun q => { q with state := ClientState.waiting, current_room := some rid })
          writeRoom s3 rid { rB with state := RoomState.waiting }
        | none =>
          let rC := { rB with state := RoomState.empty }
          let s2 := writeRoom s1 rid rC
          { s2 with rooms := room_remove_if_empty_locked s2.rooms rC }

/-- `room_try_restart` (`room.c:262-292`): when both replay flags are
set, flip the starting-slot toggle, reset the game with the new starting
slot to move, re-enter `PLAYING`, and send `RESTART`, then `TURN` and the
`SYMBOL` labels according to the new toggle. -/
def room_try_restart (s : ServerState) (rid : Int) : ServerState :=
  match room_find_by_id s rid with
  | none => s
  | some r =>
    if r.p1 = none ∨ r.p2 = none then s
    else if r.replay_p1 ≠ 0 ∧ r.replay_p2 ≠ 0 then
      let sp := 1 - r.starting_player
      let g := if sp = 0 then game_reset r.p1 else game_reset r.p2
      let r1 := { r with starting_player := sp, game := g,
                         state := RoomState.playing, replay_p1 := 0, replay_p2 := 0 }
      let s1 := writeRoom s rid r1
      let s2 := sendOpt s1 r.p1 "RESTART|"
      let s3 := sendOpt s2 r.p2 "RESTART|"
      if sp = 0 then
        sendOpt (sendOpt (sendOpt s3 r.p1 "TURN|Your move") r.p1 "SYMBOL|X") r.p2 "SYMBOL|O"
      else
        sendOpt (sendOpt (sendOpt s3 r.p2 "TURN|Your move") r.p2 "SYMBOL|X") r.p1 "SYMBOL|O"
    else s

/-- Outcome evaluation of `game_move` after the placement and broadcast
(`game.c:70-107`): `r1` is the room with the new board already stored in
`s3`. A win closes the game, clears the replay flags and notifies (plus
ends the room into `WAITING` when a slot is empty); a draw closes and
notifies both; otherwise the turn pointer flips and the new holder is
prompted. -/
def gm_finish (s3 : ServerState) (rid : Int) (cid : ClientId) (r1 : Room) : Nat × ServerState :=
  let res := check_win r1.game.board
  if res = 1 then
    let r2 := { r1 with game := { r1.game with state := 1 },
                        replay_p1 := 0, replay_p2 := 0 }
    let s4 := writeRoom s3 rid r2
    let s6 :=
      if r1.p1 = some cid then
        sendOpt (sendOpt s4 r2.p1 "WIN|You") r2.p2 ("LOSE|" ++ nameOf s3 r2.p1)
      else
        sendOpt (sendOpt s4 r2.p2 "WIN|You") r2.p1 ("LOSE|" ++ nameOf s3 r2.p2)
    if r2.p1 = none ∨ r2.p2 = none then
      let s7 := sendOpt s6 r2.p1 "INFO|Game ended"
      let s8 := sendOpt s7 r2.p2 "INFO|Game ended"
      (1, writeRoom s8 rid { r2 with state := RoomState.waiting })
    else (1, s6)
  else if res = 2 then
    let r2 := { r1 with game := { r1.game with state := 2 },
                        replay_p1 := 0, replay_p2 := 0 }
    let s4 := writeRoom s3 rid r2
    (1, sendOpt (sendOpt s4 r2.p1 "DRAW|") r2.p2 "DRAW|")
  else
    let nt := if r1.game.current_turn = r1.p1 then r1.p2 else r1.p1
    let r2 := { r1 with game := { r1.game with current_turn := nt } }
    let s4 := writeRoom s3 rid r2
    (1, sendOpt s4 nt "TURN|Your move")

/-- `game_move` (`game.c:51-108`). Validation in source order — outcome
must be running, mover must hold the turn, coordinates in range, cell
empty — each rejection sending its reason and changing nothing. On
acceptance the mover's symbol (X exactly when the mover is `p1`) is
placed, the move broadcast, and the outcome evaluated: win, draw, or turn
flip. Returns the C `int` result (1 accepted, 0 rejected). -/
def game_move (s : ServerState) (rid : Int) (cid : ClientId) (x y : Int) : Nat × ServerState :=
  match room_find_by_id s rid with
  | none => (0, s)
  | some r =>
    match getClient? s cid with
    | none => (0, s)
    | some who =>
      let g := r.game
      if g.state ≠ 0 then (0, sendp s cid "ERROR|Game finished")
      else if g.current_turn ≠ some cid then (0, sendp s cid "ERROR|Not your turn")
      else if hb : x < 0 ∨ 3 ≤ x ∨ y < 0 ∨ 3 ≤ y then
        (0, sendp s cid "ERROR|Invalid position")
      else
        let fx : Fin 3 := ⟨x.toNat, by omega⟩
        let fy : Fin 3 := ⟨y.toNat, by omega⟩
        if g.board fy fx ≠ ' ' then (0, sendp s cid "ERROR|Occupied")
        else
          let sym := if r.p1 = some cid then 'X' else 'O'
          let board1 : Board := fun j i => if j = fy ∧ i = fx then sym else g.board j i
          let r1 := { r with game := { g with board := board1 } }
          let s1 := writeRoom s rid r1
          let mv := "MOVE|" ++ who.name ++ "|" ++ toString x ++ "|" ++ toString y
          let s2 := sendOpt s1 r1.p1 mv
          let s3 := sendOpt s2 r1.p2 mv
          gm_finish s3 rid cid r1

/-- `MAX_INVALID_MSG` (`client.c:33`). -/
def MAX_INVALID_MSG : Int := 3

/-- `bump_invalid` (`client.c:296-306`): increment the invalid-input
counter; on reaching the threshold send the final error, mark the session
dead, shut the transport, and run the same `handle_disconnect` path as a
transport failure. -/
def bump_invalid (s : ServerState) (cid : ClientId) (grace now : Int) : ServerState :=
  match getClient? s cid with
  | none => s
  | some c =>
    let s1 := updateClient s cid (fun q => { q with invalid_count := q.invalid_count + 1 })
    if c.invalid_count + 1 ≥ MAX_INVALID_MSG then
      let s2 := sendp s1 cid "ERROR|Too many invalid messages"
      let s3 := updateClient s2 cid (fun q => { q with alive := false, connected := false })
      handle_disconnect s3 cid grace now
    else s1

/-! ## Reconnection and pruning (`room.c`) -/

/-- The `match_p1` condition of `room_reconnect` (`room.c:365-367`): slot
pointer null, marked disconnected, preserved name and session token both
equal to the supplied values. -/
def match_p1 (nick sess : String) (r : Room) : Bool :=
  r.p1 == none && r.p1_disconnected && r.p1_name == nick && r.p1_session == sess

/-- The `match_p2` condition of `room_reconnect` (`room.c:369-371`). -/
def match_p2 (nick sess : String) (r : Room) : Bool :=
  r.p2 == none && r.p2_disconnected && r.p2_name == nick && r.p2_session == sess

/-- `match_p1 || match_p2`, the per-room test of the reconnect scan. -/
def reconnect_match (nick sess : String) (r : Room) : Bool :=
  match_p1 nick sess r || match_p2 nick sess r

/-- The board-replay messages of `room_reconnect` (`room.c:395-403`):
rows outer, columns inner; each occupied cell is attributed to the stored
name of the slot owning its symbol (X to `p1_name`, O to `p2_name`). -/
def reconnect_board_msgs (r : Room) : List String :=
  ((List.finRange 3).map (fun y =>
    (List.finRange 3).filterMap (fun x =>
      let ch := r.game.board y x
      if ch = 'X' ∨ ch = 'O' then
        some ("MOVE|" ++ (if ch = 'X' then r.p1_name else r.p2_name) ++
          "|" ++ toString x.val ++ "|" ++ toString y.val)
      else none))).flatten

/-- Send a list of messages to one client, in order. -/
def sendAll (s : ServerState) (fd : ClientId) (ms : List String) : ServerState :=
  ms.foldl (fun acc m => sendp acc fd m) s

/-- `room_reconnect` (`room.c:360-424`): scan the active rooms in order
for the first Disconnected slot whose preserved name and session token
both match exactly (`p1` preferred within a room); rebind it to the
newcomer, send the handshake, replay the board, and notify the opponent.
No match sends an explicit failure reply and mutates nothing. -/
def room_reconnect (s : ServerState) (nick sess : String) (cid : ClientId) : ServerState :=
  match s.rooms.find? (fun r => reconnect_match nick sess r) with
  | none => sendp s cid "ERROR|No reconnect slot"
  | some r =>
    let mp1 := match_p1 nick sess r
    let r1 :=
      if mp1 then { r with p1 := some cid, p1_disconnected := false, p1_disconnected_at := 0 }
      else { r with p2 := some cid, p2_disconnected := false, p2_disconnected_at := 0 }
    let s1 := writeRoom s r.id r1
    let s2 := updateClient s1 cid (fun q =>
      { q with current_room := some r.id,
               state := if r1.p1 ≠ none ∧ r1.p2 ≠ none then ClientState.playing
                        else ClientState.waiting })
    let s3 := sendp s2 cid "RECONNECTED|"
    let opponent := if mp1 then r1.p2 else r1.p1
    let s4 := sendp s3 cid ("START|Opponent:" ++
      (match opponent with
       | some o => nameOf s (some o)
       | none => "Unknown"))
    let s5 := sendp s4 cid ("SYMBOL|" ++ (if mp1 then "X" else "O"))
    let s6 := sendAll s5 cid (reconnect_board_msgs r1)
    let s7 := if r1.game.current_turn = some cid then sendp s6 cid "TURN|" else s6
    sendOpt s7 opponent "INFO|Opponent reconnected"

/-- Body of the `rooms_prune_disconnected` loop (`room.c:435-481`): each
room is visited once, in order; a room whose `p1` (checked first) or `p2`
slot is disconnected with a non-zero timestamp at least `grace` seconds
old is pruned — the surviving occupant, if any, is notified, awarded the
win and returned to the lobby — and the room, both slots now null, is
removed (the C code continues at the same index after the compaction
shift, i.e. with the next room). -/
def prune_go (grace now : Int) :
    List Room → List Client → List (ClientId × String) →
    List Room × List Client × List (ClientId × String)
  | [], cls, ms => ([], cls, ms)
  | r :: rest, cls, ms =>
    if r.p1_disconnected ∧ r.p1_disconnected_at ≠ 0 ∧ now - r.p1_disconnected_at ≥ grace then
      match r.p2 with
      | some o =>
        prune_go grace now rest
          (cls.map (fun c => if c.cid = o then
            { c with current_room := none, state := ClientState.lobby } else c))
          (ms ++ [(o, "INFO|Opponent did not return in time"), (o, "WIN|You")])
      | none => prune_go grace now rest cls ms
    else if r.p2_disconnected ∧ r.p2_disconnected_at ≠ 0 ∧ now - r.p2_disconnected_at ≥ grace then
      match r.p1 with
      | some o =>
        prune_go grace now rest
          (cls.map (fun c => if c.cid = o then
            { c with current_room := none, state := ClientState.lobby } else c))
          (ms ++ [(o, "INFO|Opponent did not return in time"), (o, "WIN|You")])
      | none => prune_go grace now rest cls ms
    else
      let t := prune_go grace now rest cls ms
      (r :: t.1, t.2.1, t.2.2)

/-- `rooms_prune_disconnected` (`room.c:430-483`): no-op for a
non-positive grace, otherwise the sweep above at the current time. -/
def rooms_prune_disconnected (s : ServerState) (grace_seconds now : Int) : ServerState :=
  if grace_seconds ≤ 0 then s
  else
    let t := prune_go grace_seconds now s.rooms s.clients s.msgs
    { s with rooms := t.1, clients := t.2.1, msgs := t.2.2 }

/-- The literal grace argument the heartbeat thread passes to
`rooms_prune_disconnected` (`main.c:60`). -/
def heartbeat_grace_arg : Int := 30

/-- The grace sweep performed each heartbeat tick (`main.c:60`):
`rooms_prune_disconnected(30)` — the argument is the literal 30, not
`g_config.disconnect_grace`. -/
def heartbeat_grace_sweep (s : ServerState) (now : Int) : ServerState :=
  rooms_prune_disconnected s heartbeat_grace_arg now

/-! ## Line parsing (`game.c`, `client.c`) -/

/-- `strncmp(line, tok, strlen(tok)) == 0`: the verb-token tests of the
dispatcher and the literal-key tests of the `sscanf` patterns. (Defined
over the character list so that it evaluates by kernel reduction.) -/
def strncmp_eq (line tok : String) : Bool :=
  tok.data.isPrefixOf line.data

/-- `line + n`: the tail of the line after the first `n` characters. -/
def strDrop (line : String) (n : Nat) : String :=
  String.mk (line.data.drop n)

/-- `tolower` for ASCII, as `strcasecmp` applies per character. -/
def c_tolower (ch : Char) : Char :=
  if 'A' ≤ ch ∧ ch ≤ 'Z' then Char.ofNat (ch.toNat + 32) else ch

/-- Split a character list at every delimiter hit (keeping empty pieces). -/
def split_chars (p : Char → Bool) : List Char → List (List Char)
  | [] => [[]]
  | c :: t =>
    let r := split_chars p t
    if p c then [] :: r
    else
      match r with
      | h :: t2 => (c :: h) :: t2
      | [] => [[c]]

/-- `strtol(p, &end, 10)`: skip whitespace, optional sign, digits; the
value and the position after the digits, or value 0 with `end` left at
the start when no digits were consumed. -/
def strtol10 (cs : List Char) : Int × List Char :=
  let ws := cs.dropWhile Char.isWhitespace
  let sgn : Int := match ws with
    | '-' :: _ => -1
    | _ => 1
  let body := match ws with
    | '-' :: t => t
    | '+' :: t => t
    | t => t
  let digits := body.takeWhile Char.isDigit
  if digits.isEmpty then (0, cs)
  else
    (sgn * (digits.foldl (fun a c => a * 10 + ((c.toNat : Int) - ('0'.toNat : Int))) 0),
     body.dropWhile Char.isDigit)

/-- `atoi` as used for `##JOINROOM|` (`client.c:146`). -/
def atoi (str : String) : Int := (strtol10 str.toList).1

/-- `parse_move` (`game.c:117-134`): after the `##MOVE|` token, an
integer, a literal `|`, and a second integer, both within 0..2. -/
def parse_move (buf : String) : Option (Int × Int) :=
  if strncmp_eq buf "##MOVE|" then
    let p := buf.data.drop 7
    let t1 := strtol10 p
    match t1.2 with
    | '|' :: rest =>
      let t2 := strtol10 rest
      if t1.1 < 0 ∨ t1.1 ≥ 3 ∨ t2.1 < 0 ∨ t2.1 ≥ 3 then none
      else some (t1.1, t2.1)
    | _ => none
  else none

/-- `strcasecmp(a, b) == 0`: ASCII case-insensitive equality. -/
def eqIgnoreCase (a b : String) : Bool :=
  a.data.map c_tolower == b.data.map c_tolower

/-! ## Protocol dispatcher (`client.c`) -/

/-- `handle_join` (`client.c:271-284`): copy the payload (bounded by the
64-byte scratch buffer), cut at the first `|`, bind it as the display
name, stay in the lobby, and echo the name and the session token. -/
def handle_join (s : ServerState) (cid : ClientId) (payload : String) : ServerState :=
  match getClient? s cid with
  | none => s
  | some _ =>
    let tmp := String.mk (payload.toList.take 63)
    let nm := trunc31 (String.mk (tmp.toList.takeWhile (fun ch => ch ≠ '|')))
    let s1 := updateClient s cid (fun c => { c with name := nm, state := ClientState.lobby })
    let s2 := sendp s1 cid ("JOINED|" ++ nm)
    sendp s2 cid ("SESSION|" ++ sessionOf s1 (some cid))

/-- `handle_quit` (`client.c:286-289`): acknowledge and end the read loop. -/
def handle_quit (s : ServerState) (cid : ClientId) : ServerState :=
  updateClient (sendp s cid "BYE|") cid (fun c => { c with alive := false })

/-- `rooms_list_send` (`room.c:233-253`): one reply line listing id,
name, state and occupancy of every non-empty room (the C 512-byte buffer
bound is not modelled). -/
def rooms_list_send (s : ServerState) (cid : ClientId) : ServerState :=
  let msg := s.rooms.foldl (fun acc r =>
    if r.state = RoomState.empty then acc
    else acc ++ "|" ++ toString r.id ++ "|" ++ r.name ++ "|" ++
      (if r.state = RoomState.waiting then "WAITING" else "PLAYING") ++ "|" ++
      toString ((if r.p1 ≠ none then 1 else 0) + (if r.p2 ≠ none then (1 : Nat) else 0)) ++ "/2")
    ("ROOMS|" ++ toString s.rooms.length)
  sendp s cid msg

/-- The `##REPLAY|` branch of `dispatch_line` once a room is known
(`client.c:184-231`): anything but a case-insensitive `YES` is a decline
— a voluntary departure of that slot with no identity preserved, the
opponent demoted to waiting, the room removed only if both slots are now
null; a `YES` records the slot's flag and tries the restart. -/
def dispatch_replay_room (s : ServerState) (cid : ClientId) (rid : Int) (rest : String) : ServerState :=
  match room_find_by_id s rid with
  | none => s
  | some r =>
    if eqIgnoreCase rest "YES" = false then
      let s1 := sendp s cid "INFO|You declined replay"
      let other := if r.p1 = some cid then r.p2 else r.p1
      let s2 :=
        match other with
        | some o => updateClient (sendp s1 o "INFO|Opponent declined replay") o
            (fun q => { q with state := ClientState.waiting, current_room := some rid })
        | none => s1
      let rA := if r.p1 = some cid then
          { r with p1 := none, p1_name := "", p1_session := "", p1_disconnected := false }
        else r
      let rB := if rA.p2 = some cid then
          { rA with p2 := none, p2_name := "", p2_session := "", p2_disconnected := false }
        else rA
      let s3 := updateClient s2 cid
        (fun q => { q with current_room := none, state := ClientState.lobby })
      let rC := { rB with state := RoomState.waiting }
      let s4 := sendp s3 cid "EXITED|"
      let s5 := writeRoom s4 rid rC
      if rC.p1 = none ∧ rC.p2 = none then
        let rD := { rC with state := RoomState.empty }
        let s6 := writeRoom s5 rid rD
        { s6 with rooms := room_remove_if_empty_locked s6.rooms rD }
      else s5
    else
      let rA := { r with replay_p1 := if r.p1 = some cid then 1 else r.replay_p1,
                         replay_p2 := if r.p2 = some cid then 1 else r.replay_p2 }
      let s1 := writeRoom s rid rA
      let s2 := sendp s1 cid "INFO|Replay confirmed"
      room_try_restart s2 rid

/-- `dispatch_line` (`client.c:123-236`): dispatch on the leading verb
token, in source order. Unrecognized verbs, malformed `##RECONNECT|` and
`##MOVE|` payloads, and gameplay verbs outside a room draw an error reply
and an invalid-input bump; `##EXIT|` outside a room falls through
`room_leave`'s null-room guard silently. `max_rooms` and `grace` stand
for the `g_config` fields the handlers read; `now` for `time(NULL)`. -/
def dispatch_line (s : ServerState) (cid : ClientId) (line : String)
    (max_rooms grace now : Int) : ServerState :=
  if strncmp_eq line "##JOIN|" then handle_join s cid (strDrop line 7)
  else if strncmp_eq line "##RECONNECT|" then
    let toks := ((split_chars (fun ch => ch == '|') (line.data.drop 12)).map String.mk).filter
      (fun t => t ≠ "")
    match toks with
    | name :: session :: _ =>
      let s1 := updateClient s cid
        (fun c => { c with name := trunc31 name, session_id := trunc31 session })
      room_reconnect s1 (trunc31 name) (trunc31 session) cid
    | _ => bump_invalid (sendp s cid "ERROR|Invalid reconnect format") cid grace now
  else if strncmp_eq line "##CREATE|" then room_create s (strDrop line 9) cid max_rooms
  else if strncmp_eq line "##JOINROOM|" then room_join s (atoi (strDrop line 11)) cid
  else if strncmp_eq line "##EXIT|" then room_leave s cid
  else if strncmp_eq line "##LIST|" then rooms_list_send s cid
  else if strncmp_eq line "##QUIT|" then handle_quit s cid
  else if strncmp_eq line "##PING|" then sendp s cid "PONG|"
  else if strncmp_eq line "##PONG|" then
    updateClient s cid (fun c => { c with missed_pongs := 0 })
  else if strncmp_eq line "##MOVE|" then
    match getClient? s cid with
    | none => s
    | some c =>
      match c.current_room with
      | none => bump_invalid (sendp s cid "ERROR|Not in game room") cid grace now
      | some rid =>
        match parse_move line with
        | some xy => (game_move s rid cid xy.1 xy.2).2
        | none => bump_invalid (sendp s cid "ERROR|Invalid MOVE format") cid grace now
  else if strncmp_eq line "##REPLAY|" then
    match getClient? s cid with
    | none => s
    | some c =>
      match c.current_room with
      | none => bump_invalid (sendp s cid "ERROR|Not in room") cid grace now
      | some rid => dispatch_replay_room s cid rid (strDrop line 9)
  else bump_invalid (sendp s cid "ERROR|UNKNOWN_CMD") cid grace now

/-- The verb tokens `dispatch_line` recognizes, in source order; a line
matching none of them falls through to the `ERROR|UNKNOWN_CMD` branch. -/
def is_known_verb (line : String) : Bool :=
  strncmp_eq line "##JOIN|" || strncmp_eq line "##RECONNECT|" ||
  strncmp_eq line "##CREATE|" || strncmp_eq line "##JOINROOM|" ||
  strncmp_eq line "##EXIT|" || strncmp_eq line "##LIST|" ||
  strncmp_eq line "##QUIT|" || strncmp_eq line "##PING|" ||
  strncmp_eq line "##PONG|" || strncmp_eq line "##MOVE|" ||
  strncmp_eq line "##REPLAY|"

/-! ## Configuration (`config.c`, `main.c`) -/

/-- `ServerConfig` (`config.h`, with the `disconnect_grace` field
`config.c` populates). -/
structure ServerConfig where
  port : Int
  max_rooms : Int
  max_clients : Int
  bind_address : String
  disconnect_grace : Int
deriving DecidableEq

/-- `sscanf(line, "KEY=%d", &v)`: the literal key must start the line,
then `%d` (whitespace, optional sign, at least one digit). -/
def sscanf_key_int (key line : String) : Option Int :=
  if strncmp_eq line key then
    let rest := line.data.drop key.data.length
    let t := strtol10 rest
    if t.2 = rest then none else some t.1
  else none

/-- `sscanf(line, "BIND_ADDRESS=%31s", buf)`: the literal key, then a
whitespace-delimited token of at most 31 characters. -/
def sscanf_key_str (key line : String) : Option String :=
  if strncmp_eq line key then
    let rest := (line.data.drop key.data.length).dropWhile Char.isWhitespace
    let tok := rest.takeWhile (fun c => !c.isWhitespace)
    if tok.isEmpty then none else some (String.mk (tok.take 31))
  else none

/-- The defaults `config_load` installs first (`config.c:13-17`). -/
def config_defaults : ServerConfig :=
  { port := 10000, max_rooms := 16, max_clients := 128,
    bind_address := "0.0.0.0", disconnect_grace := 15 }

/-- One iteration of the `fgets` loop (`config.c:23-29`): each of the
five `sscanf` patterns is tried on the line and overwrites its field on a
match. -/
def config_step (cfg : ServerConfig) (line : String) : ServerConfig :=
  let c1 := match sscanf_key_int "PORT=" line with
    | some v => { cfg with port := v }
    | none => cfg
  let c2 := match sscanf_key_int "MAX_ROOMS=" line with
    | some v => { c1 with max_rooms := v }
    | none => c1
  let c3 := match sscanf_key_int "MAX_CLIENTS=" line with
    | some v => { c2 with max_clients := v }
    | none => c2
  let c4 := match sscanf_key_str "BIND_ADDRESS=" line with
    | some v => { c3 with bind_address := v }
    | none => c3
  match sscanf_key_int "DISCONNECT_GRACE=" line with
  | some v => { c4 with disconnect_grace := v }
  | none => c4

/-- `config_load` (`config.c:8-35`): defaults, then — when the file
exists — every line in order through the `sscanf` patterns. -/
def config_load (file : Option (List String)) : ServerConfig :=
  match file with
  | none => config_defaults
  | some lines => lines.foldl config_step config_defaults

/-- The clamping `main` applies after loading (`main.c:77-79`):
`max_rooms` into (0, 16], `max_clients` into (0, 128], a non-positive
`disconnect_grace` back to 15. `port` is not touched. -/
def main_clamp (cfg : ServerConfig) : ServerConfig :=
  let c1 := if cfg.max_rooms ≤ 0 ∨ cfg.max_rooms > 16 then { cfg with max_rooms := 16 } else cfg
  let c2 := if c1.max_clients ≤ 0 ∨ c1.max_clients > 128 then { c1 with max_clients := 128 } else c1
  if c2.disconnect_grace ≤ 0 then { c2 with disconnect_grace := 15 } else c2

/-! ## Concrete test fixtures

Two sessions and the states a short protocol exchange reaches; used by
the concrete theorems below. `cA`/`cB` are the clients as `client_create`
builds them (lobby state, counters zero) with names already bound. -/

def cA : Client :=
  { cid := 1, name := "A", state := ClientState.lobby, current_room := none,
    alive := true, connected := true, missed_pongs := 0, invalid_count := 0,
    session_id := "sa" }

def cB : Client :=
  { cid := 2, name := "B", state := ClientState.lobby, current_room := none,
    alive := true, connected := true, missed_pongs := 0, invalid_count := 0,
    session_id := "sb" }

/-- Fresh server with the two clients registered and no rooms. -/
def st0 : ServerState := { rooms := [], next_room_id := 0, clients := [cA, cB], msgs := [] }

/-- A creates room 0 and B joins it: a game in progress, A is X to move. -/
def stGame : ServerState := room_join (room_create st0 "r" 1 16) 0 2

/-- B's transport drops at t = 100: slot `p2` is Disconnected. -/
def stDisc : ServerState := handle_disconnect stGame 2 15 100

/-- A declines a replay: A's slot is vacated with no identity kept, B
stays as the sole occupant — in slot `p2` — of the `WAITING` room. -/
def stDecl : ServerState := dispatch_line stGame 1 "##REPLAY|NO" 16 15 100

/-- B, sole occupant of room 0, asks to join room 0. -/
def stSelf : ServerState := dispatch_line stDecl 2 "##JOINROOM|0" 16 15 100

/-- A wins the first round: row 0 filled by A against B's two moves. -/
def stWon : ServerState :=
  (game_move (game_move (game_move (game_move (game_move
    stGame 0 1 0 0).2 0 2 0 1).2 0 1 1 0).2 0 2 1 1).2 0 1 2 0).2

/-- Both players confirm the replay: the starting-slot toggle flips to 1
and the room restarts with B told to move and labelled X. -/
def stRep : ServerState :=
  dispatch_line (dispatch_line stWon 2 "##REPLAY|YES" 16 15 100) 1 "##REPLAY|YES" 16 15 100

/-- B (the new starting slot) plays the first move of the second round. -/
def stRepMove : ServerState := (game_move stRep 0 2 0 0).2

/-- The `stWon` room with both replay-confirmation flags recorded, the
state from which `room_try_restart` fires. -/
def stReady : ServerState :=
  updateRoom stWon 0 (fun q => { q with replay_p1 := 1, replay_p2 := 1 })

/-! ## Theorems: the game-outcome evaluation -/

theorem rowWin_iff (b : Board) :
    rowWin b = true ↔ ∃ i : Fin 3, b i 0 ≠ ' ' ∧ b i 0 = b i 1 ∧ b i 1 = b i 2 := by
  constructor
  · intro h
    simp only [rowWin, Bool.or_eq_true, Bool.and_eq_true, bne_iff_ne, beq_iff_eq] at h
    rcases h with (h | h) | h
    · exact ⟨0, h.1.1, h.1.2, h.2⟩
    · exact ⟨1, h.1.1, h.1.2, h.2⟩
    · exact ⟨2, h.1.1, h.1.2, h.2⟩
  · rintro ⟨i, h1, h2, h3⟩
    simp only [rowWin, Bool.or_eq_true, Bool.and_eq_true, bne_iff_ne, beq_iff_eq]
    fin_cases i
    · exact Or.inl (Or.inl ⟨⟨h1, h2⟩, h3⟩)
    · exact Or.inl (Or.inr ⟨⟨h1, h2⟩, h3⟩)
    · exact Or.inr ⟨⟨h1, h2⟩, h3⟩

theorem colWin_iff (b : Board) :
    colWin b = true ↔ ∃ i : Fin 3, b 0 i ≠ ' ' ∧ b 0 i = b 1 i ∧ b 1 i = b 2 i := by
  constructor
  · intro h
    simp only [colWin, Bool.or_eq_true, Bool.and_eq_true, bne_iff_ne, beq_iff_eq] at h
    rcases h with (h | h) | h
    · exact ⟨0, h.1.1, h.1.2, h.2⟩
    · exact ⟨1, h.1.1, h.1.2, h.2⟩
    · exact ⟨2, h.1.1, h.1.2, h.2⟩
  · rintro ⟨i, h1, h2, h3⟩
    simp only [colWin, Bool.or_eq_true, Bool.and_eq_true, bne_iff_ne, beq_iff_eq]
    fin_cases i
    · exact Or.inl (Or.inl ⟨⟨h1, h2⟩, h3⟩)
    · exact Or.inl (Or.inr ⟨⟨h1, h2⟩, h3⟩)
    · exact Or.inr ⟨⟨h1, h2⟩, h3⟩

theorem fullB_iff (b : Board) : fullB b = true ↔ boardFull b := by
  constructor
  · intro h
    simp only [fullB, Bool.and_eq_true, bne_iff_ne] at h
    intro i j
    fin_cases i <;> fin_cases j <;> tauto
  · intro h
    simp only [fullB, Bool.and_eq_true, bne_iff_ne]
    exact ⟨⟨⟨⟨⟨⟨⟨⟨h 0 0, h 0 1⟩, h 0 2⟩, h 1 0⟩, h 1 1⟩, h 1 2⟩, h 2 0⟩, h 2 1⟩, h 2 2⟩

theorem winLine_bool_iff (b : Board) :
    (rowWin b || colWin b || diagWin b || antiWin b) = true ↔ hasWinLine b := by
  simp only [Bool.or_eq_true, or_assoc, rowWin_iff, colWin_iff, diagWin, antiWin,
    Bool.and_eq_true, bne_iff_ne, beq_iff_eq, hasWinLine, and_assoc]

theorem check_win_eq_one_iff (b : Board) : check_win b = 1 ↔ hasWinLine b := by
  rw [← winLine_bool_iff]
  unfold check_win
  cases h1 : rowWin b <;> cases h2 : colWin b <;> cases h3 : diagWin b <;>
    cases h4 : antiWin b <;> simp only [h1, h2, h3, h4, if_true, if_false,
      Bool.false_or, Bool.true_or, Bool.or_true, Bool.or_false] <;>
    (split_ifs <;> simp_all)

theorem check_win_eq_two_iff (b : Board) :
    check_win b = 2 ↔ (boardFull b ∧ ¬ hasWinLine b) := by
  rw [← winLine_bool_iff, ← fullB_iff]
  unfold check_win
  cases h1 : rowWin b <;> cases h2 : colWin b <;> cases h3 : diagWin b <;>
    cases h4 : antiWin b <;> cases h5 : fullB b <;>
    simp [h1, h2, h3, h4, h5]

/-- C5: `check_win` returns 1 (Won) exactly when some full row, full
column, or either diagonal holds three identical non-empty symbols, and
returns 2 (Draw) exactly when the board is full with no such line;
consequently a full board without a winning line yields Draw, never Won. -/
theorem check_win_won_draw_iff (b : Board) :
    (check_win b = 1 ↔ hasWinLine b) ∧
    (check_win b = 2 ↔ (boardFull b ∧ ¬ hasWinLine b)) ∧
    (boardFull b ∧ ¬ hasWinLine b → check_win b = 2 ∧ check_win b ≠ 1) := by
  refine ⟨check_win_eq_one_iff b, check_win_eq_two_iff b, fun h => ⟨(check_win_eq_two_iff b).mpr h, ?_⟩⟩
  intro h1
  exact h.2 ((check_win_eq_one_iff b).mp h1)

/-! ## Basic facts about the state helpers -/

theorem sendp_rooms (s : ServerState) (fd : ClientId) (m : String) :
    (sendp s fd m).rooms = s.rooms := rfl

theorem sendp_clients (s : ServerState) (fd : ClientId) (m : String) :
    (sendp s fd m).clients = s.clients := rfl

theorem sendp_msgs (s : ServerState) (fd : ClientId) (m : String) :
    (sendp s fd m).msgs = s.msgs ++ [(fd, m)] := rfl

theorem getClient?_sendp (s : ServerState) (fd : ClientId) (m : String) (cid : ClientId) :
    getClient? (sendp s fd m) cid = getClient? s cid := rfl

theorem room_find_sendp (s : ServerState) (fd : ClientId) (m : String) (rid : Int) :
    room_find_by_id (sendp s fd m) rid = room_find_by_id s rid := rfl

theorem room_find_updateClient (s : ServerState) (o : ClientId) (f : Client → Client) (rid : Int) :
    room_find_by_id (updateClient s o f) rid = room_find_by_id s rid := rfl

theorem updateClient_msgs (s : ServerState) (o : ClientId) (f : Client → Client) :
    (updateClient s o f).msgs = s.msgs := rfl

theorem updateClient_rooms (s : ServerState) (o : ClientId) (f : Client → Client) :
    (updateClient s o f).rooms = s.rooms := rfl

theorem writeRoom_msgs (s : ServerState) (rid : Int) (r : Room) :
    (writeRoom s rid r).msgs = s.msgs := rfl

theorem writeRoom_clients (s : ServerState) (rid : Int) (r : Room) :
    (writeRoom s rid r).clients = s.clients := rfl

theorem getClient?_updateClient (s : ServerState) (o : ClientId) (f : Client → Client)
    (cid : ClientId) (hf : ∀ q, (f q).cid = q.cid) :
    getClient? (updateClient s o f) cid
      = (getClient? s cid).map (fun q => if q.cid = o then f q else q) := by
  show (s.clients.map (fun c => if c.cid = o then f c else c)).find? (fun c => c.cid == cid)
      = (s.clients.find? (fun c => c.cid == cid)).map (fun q => if q.cid = o then f q else q)
  induction s.clients with
  | nil => rfl
  | cons a t ih =>
    have hg : (if a.cid = o then f a else a).cid = a.cid := by
      split
      · exact hf a
      · rfl
    rw [List.map_cons, List.find?_cons, List.find?_cons, hg]
    by_cases hb : a.cid = cid
    · rw [show (a.cid == cid) = true by simp [hb]]
      rfl
    · rw [show (a.cid == cid) = false by simp [hb]]
      exact ih

theorem writeRoomList_map_id (l : List Room) (rid : Int) (r' : Room) (h : r'.id = rid) :
    (writeRoomList l rid r').map (fun q => q.id) = l.map (fun q => q.id) := by
  induction l with
  | nil => rfl
  | cons a t ih =>
    by_cases ha : a.id = rid
    · simp [writeRoomList, ha, h]
    · simp [writeRoomList, ha, ih]

theorem find?_writeRoomList (l : List Room) (rid : Int) (r r' : Room)
    (hfind : l.find? (fun q => q.id == rid) = some r) (h : r'.id = rid) :
    (writeRoomList l rid r').find? (fun q => q.id == rid) = some r' := by
  induction l with
  | nil => simp at hfind
  | cons a t ih =>
    by_cases ha : a.id = rid
    · rw [writeRoomList, if_pos ha]
      exact List.find?_cons_of_pos _ (by simp [h])
    · rw [writeRoomList, if_neg ha]
      rw [List.find?_cons_of_neg _ (by simp [ha])]
      rw [List.find?_cons_of_neg _ (by simp [ha])] at hfind
      exact ih hfind

theorem room_find_writeRoom (s : ServerState) (rid : Int) (r r' : Room)
    (hr : room_find_by_id s rid = some r) (h : r'.id = rid) :
    room_find_by_id (writeRoom s rid r') rid = some r' :=
  find?_writeRoomList s.rooms rid r r' hr h

theorem eraseP_id_not_mem (l : List Room) (rid : Int)
    (hnd : (l.map (fun q => q.id)).Nodup) :
    rid ∉ (l.eraseP (fun q => q.id == rid)).map (fun q => q.id) := by
  induction l with
  | nil => simp
  | cons a t ih =>
    simp only [List.map_cons, List.nodup_cons] at hnd
    by_cases ha : a.id = rid
    · rw [List.eraseP_cons_of_pos (by simp [ha])]
      rw [ha] at hnd
      exact fun hmem => hnd.1 hmem
    · rw [List.eraseP_cons_of_neg (by simp [ha])]
      simp only [List.map_cons, List.mem_cons]
      rintro (hcon | hmem)
      · exact ha hcon.symm
      · exact ih hnd.2 hmem

theorem room_find_spec (s : ServerState) (rid : Int) (r : Room)
    (hr : room_find_by_id s rid = some r) : r ∈ s.rooms ∧ r.id = rid := by
  refine ⟨List.mem_of_find?_eq_some hr, ?_⟩
  have := List.find?_some hr
  simpa using this

/-! ## Theorems: claims about the registries and the monitor -/

/-- C1: the Monitor's grace sweep does not use the configured grace
duration. The heartbeat thread calls `rooms_prune_disconnected(30)` with
the literal 30 (`main.c:60`) while `DISCONNECT_GRACE` defaults to 15, so
a slot disconnected at t=100 is still unpruned by the sweep at t=116
(16 seconds later); pruning with the configured 15 seconds would have
removed the room and awarded the opponent the win, as the claim
describes. -/
theorem heartbeat_sweep_ignores_configured_grace :
    config_defaults.disconnect_grace = 15 ∧
    heartbeat_grace_arg = 30 ∧
    ((heartbeat_grace_sweep stDisc 116).rooms.map (fun r => (r.id, r.p2_disconnected)))
      = [(0, true)] ∧
    ((rooms_prune_disconnected stDisc config_defaults.disconnect_grace 116).rooms.map
      (fun r => r.id)) = [] ∧
    ((rooms_prune_disconnected stDisc config_defaults.disconnect_grace 116).msgs.drop
      (stDisc.msgs.length))
      = [(1, "INFO|Opponent did not return in time"), (1, "WIN|You")] := by decide

/-- C2 counterexample: in `stDisc`, room 0 holds a Disconnected slot
(`p2`, preserved identity "B"/"sb", within the grace period) and a Live
slot (`p1`). After `p1`'s voluntary leave the room is gone from the
registry — `room_remove_if_empty_locked` tests only the slot pointers, so
a Disconnected-but-not-yet-pruned slot counts as empty, contradicting the
claim that the room remains with the preserved identity intact. -/
theorem leave_after_peer_disconnect_removes_room :
    (stDisc.rooms.map (fun r => (r.id, r.p1, r.p2, r.p2_disconnected, r.p2_name, r.p2_session)))
      = [(0, some 1, none, true, "B", "sb")] ∧
    ((room_leave stDisc 1).rooms.map (fun r => r.id)) = [] := by decide

/-- C3: a session that is the sole remaining occupant of a Waiting room
— in slot `p2`, as a replay decline by `p1` leaves it — is not rejected
when it joins that room's id: the owner check only tests `p1` before the
normalization, so the session ends up in both slots simultaneously and
the room enters `PLAYING` against itself. -/
theorem sole_p2_occupant_joins_own_room :
    (stDecl.rooms.map (fun r => (r.id, r.state, r.p1, r.p2)))
      = [(0, RoomState.waiting, none, some 2)] ∧
    (stSelf.rooms.map (fun r => (r.id, r.state, r.p1, r.p2)))
      = [(0, RoomState.playing, some 2, some 2)] := by decide

/-- C4 counterexample: after the confirmed replay round in `stRep` the
toggle selects slot `p2` (session 2), which is told `SYMBOL|X`; yet the
move session 2 then makes is placed on the board as `'O'`, not `'X'` —
`game_move` keys the stored symbol to the slot (`p1` is always X),
not to the starting-slot toggle. -/
theorem restart_labels_p2_X_but_board_records_O :
    ((room_find_by_id stRep 0).map (fun r => (r.starting_player, r.game.current_turn)))
      = some (1, some 2) ∧
    (2, "SYMBOL|X") ∈ stRep.msgs ∧
    ((room_find_by_id stRepMove 0).map (fun r => r.game.board 0 0)) = some 'O' ∧
    ((room_find_by_id stRepMove 0).map (fun r => r.game.board 0 0)) ≠ some 'X' := by decide

/-- C9 counterexample: a `PORT=70000` line in the configuration file is
read verbatim and survives the caller's clamping untouched — `main`
clamps only `max_rooms`, `max_clients` and `disconnect_grace`
(`main.c:77-79`); no clamp brings the out-of-range port into the valid
range. -/
theorem file_port_not_clamped :
    (main_clamp (config_load (some ["PORT=70000"]))).port = 70000 ∧
    ¬ ((70000 : Int) ≤ 65535) := by decide

theorem sendOpt_rooms (s : ServerState) (o : Option ClientId) (m : String) :
    (sendOpt s o m).rooms = s.rooms := by
  cases o <;> rfl

theorem sendOpt_clients (s : ServerState) (o : Option ClientId) (m : String) :
    (sendOpt s o m).clients = s.clients := by
  cases o <;> rfl

theorem room_find_sendOpt (s : ServerState) (o : Option ClientId) (m : String) (rid : Int) :
    room_find_by_id (sendOpt s o m) rid = room_find_by_id s rid := by
  cases o <;> rfl

theorem getClient?_sendOpt (s : ServerState) (o : Option ClientId) (m : String) (cid : ClientId) :
    getClient? (sendOpt s o m) cid = getClient? s cid := by
  cases o <;> rfl

theorem getClient?_cid (s : ServerState) (cid : ClientId) (c : Client)
    (hc : getClient? s cid = some c) : c.cid = cid := by
  have := List.find?_some hc
  simpa using this

theorem rl_notify_rooms (s : ServerState) (cid : ClientId) (rC : Room) (w : Bool) :
    (rl_notify s cid rC w).rooms = s.rooms := by
  unfold rl_notify
  rcases (if rC.p1 ≠ none then rC.p1 else rC.p2) with _ | o
  · rfl
  · dsimp only
    split <;> rfl

theorem eraseP_id_not_mem_of_eq (l : List Room) (re : Room) (rid : Int)
    (hre : re.id = rid) (hnd : (l.map (fun q => q.id)).Nodup) :
    rid ∉ (l.eraseP (fun q => q.id == re.id)).map (fun q => q.id) := by
  subst hre
  exact eraseP_id_not_mem l re.id hnd

theorem rl_finish_removes (s3 : ServerState) (rid : Int) (rD : Room)
    (hnd : (s3.rooms.map (fun q => q.id)).Nodup) (hidd : rD.id = rid)
    (h1 : rD.p1 = none) (h2 : rD.p2 = none) :
    rid ∉ (rl_finish s3 rid rD).rooms.map (fun q => q.id) := by
  unfold rl_finish writeRoom room_remove_if_empty_locked
  rw [if_pos ⟨h1, h2⟩]
  dsimp only
  split_ifs with hx
  · refine eraseP_id_not_mem_of_eq _ _ _ hidd ?_
    rw [writeRoomList_map_id _ _ _
      (show ({ rD with state := RoomState.empty } : Room).id = rid from hidd)]
    exact hnd
  · exact absurd ⟨h1, h2⟩ hx

theorem rl_finish_keeps (s3 : ServerState) (rid : Int) (rD : Room)
    (hidd : rD.id = rid) (hmm : rid ∈ s3.rooms.map (fun q => q.id))
    (h : ¬ (rD.p1 = none ∧ rD.p2 = none)) :
    rid ∈ (rl_finish s3 rid rD).rooms.map (fun q => q.id) := by
  unfold rl_finish writeRoom
  rw [if_neg h]
  by_cases h2 : rD.p1 = none ∨ rD.p2 = none
  · rw [if_pos h2]
    dsimp only
    rw [writeRoomList_map_id _ _ _
      (show ({ rD with state := RoomState.waiting } : Room).id = rid from hidd)]
    exact hmm
  · rw [if_neg h2]
    dsimp only
    rw [writeRoomList_map_id _ _ _ hidd]
    exact hmm

/-- C2 amended: removal on voluntary leave is keyed to the slot pointers
only. With the leaver in `p1`: if the other slot holds no live session —
whether Vacant or Disconnected-but-not-yet-pruned — the room is removed
from the registry; it remains only when a live session occupies the other
slot. -/
theorem room_leave_removes_iff_no_live_pointer
    (s : ServerState) (cid : ClientId) (c : Client) (rid : Int) (r : Room)
    (hnd : (s.rooms.map (fun q => q.id)).Nodup)
    (hc : getClient? s cid = some c) (hcr : c.current_room = some rid)
    (hr : room_find_by_id s rid = some r) (hp1 : r.p1 = some cid) :
    (r.p2 = none → rid ∉ (room_leave s cid).rooms.map (fun q => q.id)) ∧
    (∀ ocid, r.p2 = some ocid → ocid ≠ cid →
      rid ∈ (room_leave s cid).rooms.map (fun q => q.id)) := by
  have hid : r.id = rid := (room_find_spec s rid r hr).2
  have hmem : r ∈ s.rooms := (room_find_spec s rid r hr).1
  constructor
  · intro hp2
    have h1 : (rl_clear r cid).p1 = none := by simp [rl_clear, hp1, hp2]
    have h2 : (rl_clear r cid).p2 = none := by simp [rl_clear, hp1, hp2]
    have hcid : (rl_clear r cid).id = rid := by
      rw [← hid]; simp [rl_clear, hp1, hp2]
    simp only [room_leave, hc, hcr, hr]
    exact rl_finish_removes _ _ _ (by rw [rl_notify_rooms]; exact hnd) hcid h1 h2
  · intro ocid hp2 hoc
    have h1 : (rl_clear r cid).p1 = none := by simp [rl_clear, hp1, hp2, hoc]
    have h2 : (rl_clear r cid).p2 = some ocid := by simp [rl_clear, hp1, hp2, hoc]
    have hcid : (rl_clear r cid).id = rid := by
      rw [← hid]; simp [rl_clear, hp1, hp2, hoc]
    simp only [room_leave, hc, hcr, hr]
    refine rl_finish_keeps _ _ _ hcid
      (by rw [rl_notify_rooms]; exact List.mem_map.mpr ⟨r, hmem, hid⟩) ?_
    intro hcontra
    have hc2 : ({ rl_clear r cid with replay_p1 := 0, replay_p2 := 0 } : Room).p2 = some ocid := h2
    rw [hc2] at hcontra
    exact Option.some_ne_none ocid hcontra.2

/-- C2 amended, witnessed at `stDisc`: with the claim's exact setup (one
Disconnected slot inside the grace window, the other occupant leaving
voluntarily) the room is removed; had the other slot held a live session,
the room would have remained. -/
theorem room_leave_removal_witness :
    0 ∉ (room_leave stDisc 1).rooms.map (fun q => q.id) ∧
    0 ∈ (room_leave stGame 1).rooms.map (fun q => q.id) := by
  constructor
  · exact (room_leave_removes_iff_no_live_pointer stDisc 1
      ((getClient? stDisc 1).get (by decide))
      0 ((room_find_by_id stDisc 0).get (by decide))
      (by decide) (Option.some_get _).symm (by decide)
      (Option.some_get _).symm (by decide)).1 (by decide)
  · exact (room_leave_removes_iff_no_live_pointer stGame 1
      ((getClient? stGame 1).get (by decide))
      0 ((room_find_by_id stGame 0).get (by decide))
      (by decide) (Option.some_get _).symm (by decide)
      (Option.some_get _).symm (by decide)).2 2 (by decide) (by decide)

/-- C6: `game_move` validates in source order — outcome running, mover
holds the turn, coordinates in range, cell empty — and every rejection
returns 0, sends exactly the structured reason to the mover, and leaves
the server state (board, turn pointer, outcome, registries) otherwise
unchanged: the result is literally `sendp` of the untouched state. -/
theorem game_move_rejects_in_order_without_mutation
    (s : ServerState) (rid : Int) (cid : ClientId) (x y : Int) (r : Room) (who : Client)
    (hr : room_find_by_id s rid = some r) (hw : getClient? s cid = some who) :
    (r.game.state ≠ 0 →
      game_move s rid cid x y = (0, sendp s cid "ERROR|Game finished")) ∧
    (r.game.state = 0 → r.game.current_turn ≠ some cid →
      game_move s rid cid x y = (0, sendp s cid "ERROR|Not your turn")) ∧
    (r.game.state = 0 → r.game.current_turn = some cid →
      (x < 0 ∨ 3 ≤ x ∨ y < 0 ∨ 3 ≤ y) →
      game_move s rid cid x y = (0, sendp s cid "ERROR|Invalid position")) ∧
    (∀ (hx0 : 0 ≤ x) (hx3 : x < 3) (hy0 : 0 ≤ y) (hy3 : y < 3),
      r.game.state = 0 → r.game.current_turn = some cid →
      r.game.board ⟨y.toNat, by omega⟩ ⟨x.toNat, by omega⟩ ≠ ' ' →
      game_move s rid cid x y = (0, sendp s cid "ERROR|Occupied")) := by
  refine ⟨?_, ?_, ?_, ?_⟩
  · intro h
    simp [game_move, hr, hw, h]
  · intro h0 ht
    simp [game_move, hr, hw, h0, ht]
  · intro h0 ht hb
    simp [game_move, hr, hw, h0, ht, hb]
  · intro hx0 hx3 hy0 hy3 h0 ht hocc
    have hnb : ¬ (x < 0 ∨ 3 ≤ x ∨ y < 0 ∨ 3 ≤ y) := by omega
    simp [game_move, hr, hw, h0, ht, hnb, hocc]

/-- C6 witness: the four rejection shapes at concrete states — a move
after the game concluded, a move out of turn, an out-of-range coordinate
and a move onto an occupied cell. -/
theorem game_move_rejections_witness :
    game_move stWon 0 1 0 0 = (0, sendp stWon 1 "ERROR|Game finished") ∧
    game_move stGame 0 2 0 0 = (0, sendp stGame 2 "ERROR|Not your turn") ∧
    game_move stGame 0 1 5 0 = (0, sendp stGame 1 "ERROR|Invalid position") ∧
    game_move stRepMove 0 1 0 0 = (0, sendp stRepMove 1 "ERROR|Occupied") := by
  refine ⟨?_, ?_, ?_, ?_⟩
  · exact (game_move_rejects_in_order_without_mutation stWon 0 1 0 0
      ((room_find_by_id stWon 0).get (by decide)) ((getClient? stWon 1).get (by decide))
      (Option.some_get _).symm (Option.some_get _).symm).1 (by decide)
  · exact (game_move_rejects_in_order_without_mutation stGame 0 2 0 0
      ((room_find_by_id stGame 0).get (by decide)) ((getClient? stGame 2).get (by decide))
      (Option.some_get _).symm (Option.some_get _).symm).2.1 (by decide) (by decide)
  · exact (game_move_rejects_in_order_without_mutation stGame 0 1 5 0
      ((room_find_by_id stGame 0).get (by decide)) ((getClient? stGame 1).get (by decide))
      (Option.some_get _).symm (Option.some_get _).symm).2.2.1 (by decide) (by decide)
      (by decide)
  · exact (game_move_rejects_in_order_without_mutation stRepMove 0 1 0 0
      ((room_find_by_id stRepMove 0).get (by decide)) ((getClient? stRepMove 1).get (by decide))
      (Option.some_get _).symm (Option.some_get _).symm).2.2.2
      (by decide) (by decide) (by decide) (by decide) (by decide) (by decide) (by decide)

/-- C7: `room_reconnect` rebinds a slot only on an exact match of both
the preserved name and the preserved session token of a Disconnected
slot; when no slot in any room matches, the reply is exactly the explicit
failure line and neither the rooms nor the clients are touched. -/
theorem room_reconnect_no_match_fails_without_mutation
    (s : ServerState) (nick sess : String) (cid : ClientId)
    (h : ∀ r ∈ s.rooms, reconnect_match nick sess r = false) :
    room_reconnect s nick sess cid = sendp s cid "ERROR|No reconnect slot" ∧
    (room_reconnect s nick sess cid).rooms = s.rooms ∧
    (room_reconnect s nick sess cid).clients = s.clients ∧
    (room_reconnect s nick sess cid).msgs = s.msgs ++ [(cid, "ERROR|No reconnect slot")] := by
  have hf : s.rooms.find? (fun r => reconnect_match nick sess r) = none := by
    rw [List.find?_eq_none]
    intro r hrm
    simp [h r hrm]
  have he : room_reconnect s nick sess cid = sendp s cid "ERROR|No reconnect slot" := by
    simp [room_reconnect, hf]
  exact ⟨he, by rw [he]; rfl, by rw [he]; rfl, by rw [he]; rfl⟩

/-- C7 witness: in `stDisc` the only Disconnected slot preserves the name
"B" with secret "sb"; a reconnect attempt quoting the right name but the
wrong secret fails explicitly and mutates nothing. -/
theorem room_reconnect_no_match_witness :
    room_reconnect stDisc "B" "bad" 3 = sendp stDisc 3 "ERROR|No reconnect slot" ∧
    (room_reconnect stDisc "B" "bad" 3).rooms = stDisc.rooms := by
  have h := room_reconnect_no_match_fails_without_mutation stDisc "B" "bad" 3 (by decide)
  exact ⟨h.1, h.2.1⟩

/-- C10: for a session in the lobby with no room association, `##EXIT|`
is a silent no-op — the state is returned unchanged, so no reply is sent
and the invalid-input counter stays put — while `##MOVE|` and `##REPLAY|`
outside a room each draw an error reply and increment the counter. -/
theorem exit_verb_outside_room_is_silent
    (s : ServerState) (cid : ClientId) (c : Client) (mr g now : Int)
    (hc : getClient? s cid = some c) (hnr : c.current_room = none)
    (hcnt : c.invalid_count + 1 < MAX_INVALID_MSG) :
    dispatch_line s cid "##EXIT|" mr g now = s ∧
    ((dispatch_line s cid "##MOVE|0|0" mr g now).msgs
        = s.msgs ++ [(cid, "ERROR|Not in game room")] ∧
      (dispatch_line s cid "##MOVE|0|0" mr g now).rooms = s.rooms ∧
      getClient? (dispatch_line s cid "##MOVE|0|0" mr g now) cid
        = some { c with invalid_count := c.invalid_count + 1 }) ∧
    ((dispatch_line s cid "##REPLAY|YES" mr g now).msgs
        = s.msgs ++ [(cid, "ERROR|Not in room")] ∧
      (dispatch_line s cid "##REPLAY|YES" mr g now).rooms = s.rooms ∧
      getClient? (dispatch_line s cid "##REPLAY|YES" mr g now) cid
        = some { c with invalid_count := c.invalid_count + 1 }) := by
  have hcc : c.cid = cid := getClient?_cid s cid c hc
  have hnge : ¬ (c.invalid_count + 1 ≥ MAX_INVALID_MSG) := not_le.mpr hcnt
  have e1 : dispatch_line s cid "##EXIT|" mr g now = room_leave s cid := rfl
  have e2 : dispatch_line s cid "##MOVE|0|0" mr g now =
      (match getClient? s cid with
       | none => s
       | some q =>
         match q.current_room with
         | none => bump_invalid (sendp s cid "ERROR|Not in game room") cid g now
         | some rid =>
           match parse_move "##MOVE|0|0" with
           | some xy => (game_move s rid cid xy.1 xy.2).2
           | none => bump_invalid (sendp s cid "ERROR|Invalid MOVE format") cid g now) := rfl
  have e3 : dispatch_line s cid "##REPLAY|YES" mr g now =
      (match getClient? s cid with
       | none => s
       | some q =>
         match q.current_room with
         | none => bump_invalid (sendp s cid "ERROR|Not in room") cid g now
         | some rid => dispatch_replay_room s cid rid (strDrop "##REPLAY|YES" 9)) := rfl
  have hbump : ∀ m : String, bump_invalid (sendp s cid m) cid g now
      = updateClient (sendp s cid m) cid
          (fun q => { q with invalid_count := q.invalid_count + 1 }) := by
    intro m
    simp [bump_invalid, getClient?_sendp, hc, hnge]
  have hget : ∀ m : String,
      getClient? (updateClient (sendp s cid m) cid
        (fun q => { q with invalid_count := q.invalid_count + 1 })) cid
      = some { c with invalid_count := c.invalid_count + 1 } := by
    intro m
    rw [getClient?_updateClient (sendp s cid m) cid
      (fun q => { q with invalid_count := q.invalid_count + 1 }) cid (fun q => rfl),
      getClient?_sendp, hc]
    simp [hcc]
  refine ⟨?_, ⟨?_, ?_, ?_⟩, ⟨?_, ?_, ?_⟩⟩
  · rw [e1]
    simp [room_leave, hc, hnr]
  · rw [e2]
    simp only [hc, hnr]
    rw [hbump]
    rfl
  · rw [e2]
    simp only [hc, hnr]
    rw [hbump]
    rfl
  · rw [e2]
    simp only [hc, hnr]
    rw [hbump, hget "ERROR|Not in game room", hnr]
  · rw [e3]
    simp only [hc, hnr]
    rw [hbump]
    rfl
  · rw [e3]
    simp only [hc, hnr]
    rw [hbump]
    rfl
  · rw [e3]
    simp only [hc, hnr]
    rw [hbump, hget "ERROR|Not in room", hnr]

/-- C10 witness: at the fresh two-client state `st0` (both clients in
the lobby with no room), `##EXIT|` from client 1 changes nothing, and
`##MOVE|`/`##REPLAY|` each draw an error and count as invalid input. -/
theorem exit_verb_outside_room_witness :
    dispatch_line st0 1 "##EXIT|" 16 15 100 = st0 ∧
    (dispatch_line st0 1 "##MOVE|0|0" 16 15 100).msgs = [(1, "ERROR|Not in game room")] ∧
    getClient? (dispatch_line st0 1 "##REPLAY|YES" 16 15 100) 1
      = some { cA with invalid_count := 1 } := by
  have h := exit_verb_outside_room_is_silent st0 1 cA 16 15 100
    (by decide) (by decide) (by decide)
  exact ⟨h.1, h.2.1.1, h.2.2.2.2⟩

theorem hd_mark_p1_fields (r : Room) (c : Client) (cid : ClientId) (now : Int)
    (hp1 : r.p1 = some cid) :
    (hd_mark r c cid now).p1 = none ∧
    (hd_mark r c cid now).p2 = r.p2 ∧
    (hd_mark r c cid now).p1_disconnected = decide (r.p2 ≠ none) ∧
    (hd_mark r c cid now).p1_name = trunc31 c.name ∧
    (hd_mark r c cid now).p1_session = trunc31 c.session_id ∧
    (hd_mark r c cid now).id = r.id := by
  simp [hd_mark, hp1]

theorem hd_clear_turn_fields (r : Room) (cid : ClientId) :
    (hd_clear_turn r cid).p1 = r.p1 ∧
    (hd_clear_turn r cid).p2 = r.p2 ∧
    (hd_clear_turn r cid).p1_disconnected = r.p1_disconnected ∧
    (hd_clear_turn r cid).p1_name = r.p1_name ∧
    (hd_clear_turn r cid).p1_session = r.p1_session ∧
    (hd_clear_turn r cid).id = r.id := by
  unfold hd_clear_turn
  split <;> simp

/-- `handle_disconnect` on a client occupying `p1` with a live opponent
in `p2`: the opponent is notified with the grace length, the leaver
returns to the lobby detached, and the room keeps exactly one slot —
`p1` now Disconnected with the preserved identity — in `WAITING`. -/
theorem handle_disconnect_p1_spec
    (s : ServerState) (cid : ClientId) (c : Client) (g now : Int)
    (rid : Int) (r : Room) (ocid : ClientId)
    (hc : getClient? s cid = some c) (hcr : c.current_room = some rid)
    (hr : room_find_by_id s rid = some r) (hp1 : r.p1 = some cid) (hp2 : r.p2 = some ocid)
    (hoc : ocid ≠ cid) (hcc : c.cid = cid) :
    (handle_disconnect s cid g now).msgs
      = s.msgs ++ [(ocid, "INFO|Opponent disconnected, waiting " ++ toString g
          ++ " s to reconnect")] ∧
    getClient? (handle_disconnect s cid g now) cid
      = some { c with connected := false, current_room := none,
                      state := ClientState.lobby } ∧
    (room_find_by_id (handle_disconnect s cid g now) rid).map
        (fun q => (q.p1, q.p1_disconnected, q.p1_name, q.p1_session, q.state))
      = some (none, true, trunc31 c.name, trunc31 c.session_id, RoomState.waiting) := by
  have hrid : r.id = rid := (room_find_spec s rid r hr).2
  obtain ⟨hm1, hm2, hm3, hm4, hm5, hm6⟩ := hd_mark_p1_fields r c cid now hp1
  obtain ⟨ht1, ht2, ht3, ht4, ht5, ht6⟩ := hd_clear_turn_fields (hd_mark r c cid now) cid
  set rB := hd_clear_turn (hd_mark r c cid now) cid with hrB
  have hB1 : rB.p1 = none := by rw [hrB, ht1, hm1]
  have hB2 : rB.p2 = some ocid := by rw [hrB, ht2, hm2, hp2]
  have hBid : rB.id = rid := by rw [hrB, ht6, hm6, hrid]
  have hBd : rB.p1_disconnected = true := by
    rw [hrB, ht3, hm3, hp2]
    simp
  have hBn : rB.p1_name = trunc31 c.name := by rw [hrB, ht4, hm4]
  have hBs : rB.p1_session = trunc31 c.session_id := by rw [hrB, ht5, hm5]
  have he : handle_disconnect s cid g now
      = writeRoom (updateClient (sendp (updateClient s cid
          (fun q => { q with connected := false, current_room := none,
                             state := ClientState.lobby })) ocid
          ("INFO|Opponent disconnected, waiting " ++ toString g ++ " s to reconnect")) ocid
          (fun q => { q with state := ClientState.waiting, current_room := some rid }))
        rid { rB with state := RoomState.waiting } := by
    simp only [handle_disconnect, hc, hcr, hr, ← hrB, hB1, hB2]
    rfl
  refine ⟨?_, ?_, ?_⟩
  · rw [he]
    rfl
  · rw [he]
    show getClient? (updateClient (sendp (updateClient s cid _) ocid _) ocid _) cid = _
    rw [getClient?_updateClient _ ocid
        (fun q => { q with state := ClientState.waiting, current_room := some rid }) cid
        (fun q => rfl),
      getClient?_sendp,
      getClient?_updateClient _ cid
        (fun q => { q with connected := false, current_room := none,
                           state := ClientState.lobby }) cid (fun q => rfl),
      hc]
    simp [hcc]
    exact fun h => hoc h.symm
  · have hfind : room_find_by_id (updateClient (sendp (updateClient s cid
        (fun q => { q with connected := false, current_room := none,
                           state := ClientState.lobby })) ocid
        ("INFO|Opponent disconnected, waiting " ++ toString g ++ " s to reconnect")) ocid
        (fun q => { q with state := ClientState.waiting, current_room := some rid })) rid
        = some r := hr
    rw [he, room_find_writeRoom _ _ _ _ hfind
      (show ({ rB with state := RoomState.waiting } : Room).id = rid from hBid)]
    simp [hB1, hBd, hBn, hBs]
/-- C8: a line matching no verb token draws `ERROR|UNKNOWN_CMD` and
increments the session's invalid-input counter. On the third such input
(counter at 2 before the line) the session additionally receives the
final error, is marked dead and disconnected, and — exactly as for a
transport failure — its room slot becomes Disconnected rather than
Vacant when an opponent remains: pointer cleared, disconnect flag set,
identity preserved, room demoted to `WAITING`. -/
theorem invalid_input_counts_and_third_strike
    (s : ServerState) (cid : ClientId) (line : String) (mr g now : Int) (c : Client)
    (hu : is_known_verb line = false) (hc : getClient? s cid = some c) :
    ((c.invalid_count + 1 < MAX_INVALID_MSG →
      (dispatch_line s cid line mr g now).msgs = s.msgs ++ [(cid, "ERROR|UNKNOWN_CMD")] ∧
      (dispatch_line s cid line mr g now).rooms = s.rooms ∧
      getClient? (dispatch_line s cid line mr g now) cid
        = some { c with invalid_count := c.invalid_count + 1 })) ∧
    (∀ (rid : Int) (r : Room) (ocid : ClientId),
      c.invalid_count = 2 → c.current_room = some rid →
      room_find_by_id s rid = some r → r.p1 = some cid → r.p2 = some ocid → ocid ≠ cid →
      (dispatch_line s cid line mr g now).msgs
        = s.msgs ++ [(cid, "ERROR|UNKNOWN_CMD"), (cid, "ERROR|Too many invalid messages"),
            (ocid, "INFO|Opponent disconnected, waiting " ++ toString g ++ " s to reconnect")] ∧
      getClient? (dispatch_line s cid line mr g now) cid
        = some { c with invalid_count := c.invalid_count + 1, alive := false,
                        connected := false, current_room := none,
                        state := ClientState.lobby } ∧
      (room_find_by_id (dispatch_line s cid line mr g now) rid).map
          (fun q => (q.p1, q.p1_disconnected, q.p1_name, q.p1_session, q.state))
        = some (none, true, trunc31 c.name, trunc31 c.session_id, RoomState.waiting)) := by
  have hcc : c.cid = cid := getClient?_cid s cid c hc
  have hu11 := hu
  simp only [is_known_verb, Bool.or_eq_false_iff] at hu11
  obtain ⟨⟨⟨⟨⟨⟨⟨⟨⟨⟨h1, h2⟩, h3⟩, h4⟩, h5⟩, h6⟩, h7⟩, h8⟩, h9⟩, h10⟩, h11⟩ := hu11
  have hd : dispatch_line s cid line mr g now
      = bump_invalid (sendp s cid "ERROR|UNKNOWN_CMD") cid g now := by
    simp only [dispatch_line, h1, h2, h3, h4, h5, h6, h7, h8, h9, h10, h11,
      Bool.false_eq_true, if_false]
  constructor
  · intro hcnt
    have hnge : ¬ (c.invalid_count + 1 ≥ MAX_INVALID_MSG) := not_le.mpr hcnt
    have hbump : bump_invalid (sendp s cid "ERROR|UNKNOWN_CMD") cid g now
        = updateClient (sendp s cid "ERROR|UNKNOWN_CMD") cid
            (fun q => { q with invalid_count := q.invalid_count + 1 }) := by
      simp [bump_invalid, getClient?_sendp, hc, hnge]
    refine ⟨?_, ?_, ?_⟩
    · rw [hd, hbump]
      rfl
    · rw [hd, hbump]
      rfl
    · rw [hd, hbump,
        getClient?_updateClient (sendp s cid "ERROR|UNKNOWN_CMD") cid
          (fun q => { q with invalid_count := q.invalid_count + 1 }) cid (fun q => rfl),
        getClient?_sendp, hc]
      simp [hcc]
  · intro rid r ocid hcnt hcr hr hp1 hp2 hoc
    have hge : c.invalid_count + 1 ≥ MAX_INVALID_MSG := by
      rw [hcnt]
      decide
    have hbump : bump_invalid (sendp s cid "ERROR|UNKNOWN_CMD") cid g now
        = handle_disconnect
            (updateClient (sendp (updateClient (sendp s cid "ERROR|UNKNOWN_CMD") cid
                (fun q => { q with invalid_count := q.invalid_count + 1 }))
              cid "ERROR|Too many invalid messages") cid
              (fun q => { q with alive := false, connected := false }))
            cid g now := by
      simp [bump_invalid, getClient?_sendp, hc, hge]
    set s3 := updateClient (sendp (updateClient (sendp s cid "ERROR|UNKNOWN_CMD") cid
        (fun q => { q with invalid_count := q.invalid_count + 1 }))
      cid "ERROR|Too many invalid messages") cid
      (fun q => { q with alive := false, connected := false }) with hs3
    have hc3 : getClient? s3 cid
        = some { c with invalid_count := c.invalid_count + 1, alive := false,
                        connected := false } := by
      rw [hs3, getClient?_updateClient _ cid
          (fun q => { q with alive := false, connected := false }) cid (fun q => rfl),
        getClient?_sendp,
        getClient?_updateClient _ cid
          (fun q => { q with invalid_count := q.invalid_count + 1 }) cid (fun q => rfl),
        getClient?_sendp, hc]
      simp [hcc]
    have hr3 : room_find_by_id s3 rid = some r := hr
    have hmsg3 : s3.msgs = s.msgs ++ [(cid, "ERROR|UNKNOWN_CMD"),
        (cid, "ERROR|Too many invalid messages")] := by
      rw [hs3]
      simp [updateClient_msgs, sendp_msgs]
    have hrid : r.id = rid := (room_find_spec s rid r hr).2
    have hr3s : room_find_by_id s3 rid = some r := hr
    have hspec := handle_disconnect_p1_spec s3 cid
      { c with invalid_count := c.invalid_count + 1, alive := false, connected := false }
      g now rid r ocid hc3 hcr hr3s hp1 hp2 hoc hcc
    rw [hd, hbump]
    refine ⟨?_, ?_, ?_⟩
    · rw [hspec.1, hmsg3]
      simp
    · rw [hspec.2.1]
    · exact hspec.2.2

/-- C8 witness: at `stGame`, player 1's first junk line appends only the
`UNKNOWN_CMD` error, and a third junk line (after two have brought the
counter to 2) leaves room 0 with a Disconnected, identity-preserving,
`WAITING` first slot. -/
theorem invalid_input_witness :
    (dispatch_line stGame 1 "bad" 16 15 100).msgs
      = stGame.msgs ++ [(1, "ERROR|UNKNOWN_CMD")] ∧
    (room_find_by_id (dispatch_line (dispatch_line (dispatch_line stGame 1 "bad" 16 15 100)
          1 "bad" 16 15 100) 1 "bad" 16 15 100) 0).map
        (fun q => (q.p1, q.p1_disconnected, q.p1_name, q.p1_session, q.state))
      = some (none, true, "A", "sa", RoomState.waiting) := by
  constructor
  · exact ((invalid_input_counts_and_third_strike stGame 1 "bad" 16 15 100
      ((getClient? stGame 1).get (by decide)) (by decide) (Option.some_get _).symm).1
      (by decide)).1
  · have h := (invalid_input_counts_and_third_strike
      (dispatch_line (dispatch_line stGame 1 "bad" 16 15 100) 1 "bad" 16 15 100) 1 "bad" 16 15 100
      ((getClient? (dispatch_line (dispatch_line stGame 1 "bad" 16 15 100) 1 "bad" 16 15 100)
          1).get (by decide))
      (by decide) (Option.some_get _).symm).2 0
      ((room_find_by_id (dispatch_line (dispatch_line stGame 1 "bad" 16 15 100) 1 "bad" 16 15 100)
          0).get (by decide))
      2 (by decide) (by decide) (Option.some_get _).symm (by decide) (by decide) (by decide)
    exact h.2.2.trans (by decide)

theorem config_step_port (cfg : ServerConfig) (line : String)
    (h : sscanf_key_int "PORT=" line = none) :
    (config_step cfg line).port = cfg.port := by
  simp only [config_step, h]
  repeat' split
  all_goals rfl

theorem config_step_max_rooms (cfg : ServerConfig) (line : String)
    (h : sscanf_key_int "MAX_ROOMS=" line = none) :
    (config_step cfg line).max_rooms = cfg.max_rooms := by
  simp only [config_step, h]
  repeat' split
  all_goals rfl

theorem config_step_max_clients (cfg : ServerConfig) (line : String)
    (h : sscanf_key_int "MAX_CLIENTS=" line = none) :
    (config_step cfg line).max_clients = cfg.max_clients := by
  simp only [config_step, h]
  repeat' split
  all_goals rfl

theorem config_step_bind (cfg : ServerConfig) (line : String)
    (h : sscanf_key_str "BIND_ADDRESS=" line = none) :
    (config_step cfg line).bind_address = cfg.bind_address := by
  simp only [config_step, h]
  repeat' split
  all_goals rfl

theorem config_step_grace (cfg : ServerConfig) (line : String)
    (h : sscanf_key_int "DISCONNECT_GRACE=" line = none) :
    (config_step cfg line).disconnect_grace = cfg.disconnect_grace := by
  simp only [config_step, h]
  repeat' split
  all_goals rfl

theorem config_foldl_port (lines : List String) :
    ∀ cfg : ServerConfig, (∀ l ∈ lines, sscanf_key_int "PORT=" l = none) →
      (lines.foldl config_step cfg).port = cfg.port := by
  induction lines with
  | nil => intro cfg _; rfl
  | cons a t ih =>
    intro cfg h
    rw [List.foldl_cons, ih (config_step cfg a) (fun l hl => h l (List.mem_cons_of_mem a hl)),
      config_step_port cfg a (h a (List.mem_cons_self a t))]

theorem config_foldl_max_rooms (lines : List String) :
    ∀ cfg : ServerConfig, (∀ l ∈ lines, sscanf_key_int "MAX_ROOMS=" l = none) →
      (lines.foldl config_step cfg).max_rooms = cfg.max_rooms := by
  induction lines with
  | nil => intro cfg _; rfl
  | cons a t ih =>
    intro cfg h
    rw [List.foldl_cons, ih (config_step cfg a) (fun l hl => h l (List.mem_cons_of_mem a hl)),
      config_step_max_rooms cfg a (h a (List.mem_cons_self a t))]

theorem config_foldl_max_clients (lines : List String) :
    ∀ cfg : ServerConfig, (∀ l ∈ lines, sscanf_key_int "MAX_CLIENTS=" l = none) →
      (lines.foldl config_step cfg).max_clients = cfg.max_clients := by
  induction lines with
  | nil => intro cfg _; rfl
  | cons a t ih =>
    intro cfg h
    rw [List.foldl_cons, ih (config_step cfg a) (fun l hl => h l (List.mem_cons_of_mem a hl)),
      config_step_max_clients cfg a (h a (List.mem_cons_self a t))]

theorem config_foldl_bind (lines : List String) :
    ∀ cfg : ServerConfig, (∀ l ∈ lines, sscanf_key_str "BIND_ADDRESS=" l = none) →
      (lines.foldl config_step cfg).bind_address = cfg.bind_address := by
  induction lines with
  | nil => intro cfg _; rfl
  | cons a t ih =>
    intro cfg h
    rw [List.foldl_cons, ih (config_step cfg a) (fun l hl => h l (List.mem_cons_of_mem a hl)),
      config_step_bind cfg a (h a (List.mem_cons_self a t))]

theorem config_foldl_grace (lines : List String) :
    ∀ cfg : ServerConfig, (∀ l ∈ lines, sscanf_key_int "DISCONNECT_GRACE=" l = none) →
      (lines.foldl config_step cfg).disconnect_grace = cfg.disconnect_grace := by
  induction lines with
  | nil => intro cfg _; rfl
  | cons a t ih =>
    intro cfg h
    rw [List.foldl_cons, ih (config_step cfg a) (fun l hl => h l (List.mem_cons_of_mem a hl)),
      config_step_grace cfg a (h a (List.mem_cons_self a t))]

/-- C9 amended: a missing file yields exactly the documented defaults, and
a present file defaults every absent key; `main` clamps `max_rooms` into
(0,16], `max_clients` into (0,128] and a non-positive grace back to 15,
but passes `port` (and `bind_address`) through untouched, so an
out-of-range `PORT` from the file is not clamped. -/
theorem config_defaults_and_caller_clamping :
    config_load none = config_defaults ∧
    config_defaults
      = { port := 10000, max_rooms := 16, max_clients := 128,
          bind_address := "0.0.0.0", disconnect_grace := 15 } ∧
    (∀ cfg : ServerConfig,
      (main_clamp cfg).port = cfg.port ∧
      (main_clamp cfg).bind_address = cfg.bind_address ∧
      0 < (main_clamp cfg).max_rooms ∧ (main_clamp cfg).max_rooms ≤ 16 ∧
      0 < (main_clamp cfg).max_clients ∧ (main_clamp cfg).max_clients ≤ 128 ∧
      0 < (main_clamp cfg).disconnect_grace) ∧
    (∀ lines : List String,
      ((∀ l ∈ lines, sscanf_key_int "PORT=" l = none) →
        (config_load (some lines)).port = 10000) ∧
      ((∀ l ∈ lines, sscanf_key_int "MAX_ROOMS=" l = none) →
        (config_load (some lines)).max_rooms = 16) ∧
      ((∀ l ∈ lines, sscanf_key_int "MAX_CLIENTS=" l = none) →
        (config_load (some lines)).max_clients = 128) ∧
      ((∀ l ∈ lines, sscanf_key_str "BIND_ADDRESS=" l = none) →
        (config_load (some lines)).bind_address = "0.0.0.0") ∧
      ((∀ l ∈ lines, sscanf_key_int "DISCONNECT_GRACE=" l = none) →
        (config_load (some lines)).disconnect_grace = 15)) := by
  refine ⟨rfl, rfl, ?_, ?_⟩
  · intro cfg
    simp only [main_clamp]
    split_ifs with h1 h2 h3 h4 h5 h6 h7 <;> simp_all
  · intro lines
    exact ⟨fun h => config_foldl_port lines config_defaults h,
      fun h => config_foldl_max_rooms lines config_defaults h,
      fun h => config_foldl_max_clients lines config_defaults h,
      fun h => config_foldl_bind lines config_defaults h,
      fun h => config_foldl_grace lines config_defaults h⟩

/-- C9 amended, witnessed: with a file that sets only `MAX_ROOMS` the
port keeps its default 10000, and `main`'s clamping leaves even an
out-of-range port 70000 untouched. -/
theorem config_defaults_witness :
    (config_load (some ["MAX_ROOMS=40", "DISCONNECT_GRACE=0"])).port = 10000 ∧
    (main_clamp ⟨70000, 40, 500, "10.0.0.1", -3⟩).port = 70000 := by
  constructor
  · exact (config_defaults_and_caller_clamping.2.2.2
      ["MAX_ROOMS=40", "DISCONNECT_GRACE=0"]).1 (by decide)
  · exact (config_defaults_and_caller_clamping.2.2.1 ⟨70000, 40, 500, "10.0.0.1", -3⟩).1

theorem map_board_write (s : ServerState) (rid : Int) {rIn : Room} (rW : Room) {bd : Board}
    (hfind : room_find_by_id s rid = some rIn) (hidW : rW.id = rid)
    (hbd : rW.game.board = bd) :
    Option.map (fun q => q.game.board) (room_find_by_id (writeRoom s rid rW) rid)
      = some bd := by
  rw [room_find_writeRoom s rid rIn rW hfind hidW]
  simp [hbd]

theorem gm_finish_board (s3 : ServerState) (rid : Int) (cid : ClientId) (r1 : Room)
    (h : room_find_by_id s3 rid = some r1) (hid : r1.id = rid) :
    (room_find_by_id (gm_finish s3 rid cid r1).2 rid).map (fun q => q.game.board)
      = some r1.game.board := by
  simp only [gm_finish]
  split_ifs with hw1 hw2 hw3 hw4 hw5 hw6
  all_goals dsimp only
  all_goals try simp only [room_find_sendOpt]
  all_goals apply map_board_write _ rid _ ?_ ?_ rfl
  all_goals try exact hid
  all_goals try exact h
  all_goals try (simp only [room_find_sendOpt];
                 refine room_find_writeRoom _ rid r1 ?_ h ?_;
                 exact hid)

theorem gm_finish_cell (s3 : ServerState) (rid : Int) (cid : ClientId) (r1 : Room)
    (fy fx : Fin 3) (c : Char)
    (h : room_find_by_id s3 rid = some r1) (hid : r1.id = rid)
    (hc : r1.game.board fy fx = c) :
    (room_find_by_id (gm_finish s3 rid cid r1).2 rid).map (fun q => q.game.board fy fx)
      = some c := by
  have hb := gm_finish_board s3 rid cid r1 h hid
  rcases hq : room_find_by_id (gm_finish s3 rid cid r1).2 rid with _ | q
  · rw [hq] at hb
    exact absurd hb (by simp)
  · rw [hq] at hb
    simp only [Option.map_some'] at hb ⊢
    rw [Option.some.injEq] at hb
    rw [hb]
    exact congrArg some hc

theorem game_move_places_slot_symbol
    (s : ServerState) (rid : Int) (cid : ClientId) (x y : Int) (r : Room) (w : Client)
    (hr : room_find_by_id s rid = some r) (hw : getClient? s cid = some w)
    (h0 : r.game.state = 0) (ht : r.game.current_turn = some cid)
    (hx0 : 0 ≤ x) (hx3 : x < 3) (hy0 : 0 ≤ y) (hy3 : y < 3)
    (hocc : r.game.board ⟨y.toNat, by omega⟩ ⟨x.toNat, by omega⟩ = ' ') :
    (room_find_by_id (game_move s rid cid x y).2 rid).map
        (fun q => q.game.board ⟨y.toNat, by omega⟩ ⟨x.toNat, by omega⟩)
      = some (if r.p1 = some cid then 'X' else 'O') := by
  have hid : r.id = rid := (room_find_spec s rid r hr).2
  have hnb : ¬ (x < 0 ∨ 3 ≤ x ∨ y < 0 ∨ 3 ≤ y) := by omega
  simp [game_move, hr, hw, h0, ht, hnb, hocc, -Option.map_eq_some']
  apply gm_finish_cell
  · simp only [room_find_sendOpt]
    refine room_find_writeRoom _ rid r ?_ hr ?_
    exact hid
  · exact hid
  · simp

/-- C4 amended: when both replay confirmations are in with the toggle on
slot 1, the restart flips the toggle to 1 and reassigns the announced
labels by the new starting slot — p2 gets the turn and the `SYMBOL|X`
label, p1 gets `SYMBOL|O` — but the symbol actually recorded on the board
stays slot-keyed: every subsequent move by p2's player is placed as `O`
(and would be placed as `X` only for p1), contradicting the announced
assignment. -/
theorem restart_flips_toggle_but_symbols_follow_slots
    (s : ServerState) (rid : Int) (r : Room) (a b : ClientId) (w : Client)
    (hr : room_find_by_id s rid = some r) (hp1 : r.p1 = some a) (hp2 : r.p2 = some b)
    (hab : a ≠ b) (hf1 : r.replay_p1 ≠ 0) (hf2 : r.replay_p2 ≠ 0)
    (hsp : r.starting_player = 0) (hwb : getClient? s b = some w) :
    (room_try_restart s rid).msgs
      = s.msgs ++ [(a, "RESTART|"), (b, "RESTART|"), (b, "TURN|Your move"),
          (b, "SYMBOL|X"), (a, "SYMBOL|O")] ∧
    (room_find_by_id (room_try_restart s rid) rid).map
        (fun q => (q.starting_player, q.game.current_turn))
      = some (1, some b) ∧
    (∀ x y : Int, ∀ (hx0 : 0 ≤ x) (hx3 : x < 3) (hy0 : 0 ≤ y) (hy3 : y < 3),
      (room_find_by_id (game_move (room_try_restart s rid) rid b x y).2 rid).map
          (fun q => q.game.board ⟨y.toNat, by omega⟩ ⟨x.toNat, by omega⟩)
        = some 'O') := by
  have hid : r.id = rid := (room_find_spec s rid r hr).2
  have he : room_try_restart s rid
      = sendp (sendp (sendp (sendp (sendp (writeRoom s rid
          { r with starting_player := 1, game := game_reset (some b),
                   state := RoomState.playing, replay_p1 := 0, replay_p2 := 0 })
          a "RESTART|") b "RESTART|") b "TURN|Your move") b "SYMBOL|X") a "SYMBOL|O" := by
    simp [room_try_restart, hr, hp1, hp2, hf1, hf2, hsp, sendOpt]
  have hrt : room_find_by_id (room_try_restart s rid) rid
      = some { r with starting_player := 1, game := game_reset (some b),
                      state := RoomState.playing, replay_p1 := 0, replay_p2 := 0 } := by
    rw [he]
    simp only [room_find_sendp]
    refine room_find_writeRoom _ rid r ?_ hr ?_
    exact hid
  refine ⟨?_, ?_, ?_⟩
  · rw [he]
    simp [sendp, writeRoom]
  · rw [hrt]
    rfl
  · intro x y hx0 hx3 hy0 hy3
    have happ := game_move_places_slot_symbol (room_try_restart s rid) rid b x y
      { r with starting_player := 1, game := game_reset (some b),
               state := RoomState.playing, replay_p1 := 0, replay_p2 := 0 } w
      hrt (by rw [he]; simp only [getClient?_sendp]; exact hwb)
      rfl rfl hx0 hx3 hy0 hy3 rfl
    exact happ.trans (by simp [hp1, hab])

/-- C4 amended, witnessed at `stReady` (the finished first round with both
confirmations recorded): the restart puts the toggle on slot 2 with B to
move, and B's move at column 1, row 2 lands as `O`. -/
theorem restart_flips_toggle_witness :
    (room_find_by_id (room_try_restart stReady 0) 0).map
        (fun q => (q.starting_player, q.game.current_turn)) = some (1, some 2) ∧
    (room_find_by_id (game_move (room_try_restart stReady 0) 0 2 1 2).2 0).map
        (fun q => q.game.board ⟨(2 : Int).toNat, by omega⟩ ⟨(1 : Int).toNat, by omega⟩)
      = some 'O' := by
  have h := restart_flips_toggle_but_symbols_follow_slots stReady 0
    ((room_find_by_id stReady 0).get (by decide)) 1 2
    ((getClient? stReady 2).get (by decide))
    (Option.some_get _).symm (by decide) (by decide) (by decide) (by decide) (by decide)
    (by decide) (Option.some_get _).symm
  exact ⟨h.2.1, h.2.2 1 2 (by decide) (by decide) (by decide) (by decide)⟩
